import Mathlib

/-!
Verification development for the volcano-audio backend
(`src/backend/main.py`).  The definitions below are a shallow embedding of
the cache / progressive-delivery core: byte strings are `List Nat`
(one `Nat` per byte), the object store is an association list from keys to
stored objects, machine integers are `Nat`/`Int` with explicit `% 2 ^ w`
where wrap-around matters, and external collaborators (the upstream
waveform source, the gzip / blosc / zarr codecs) are fields of the world
state that the embedding threads explicitly.  Wall-clock durations
(`time.time()` deltas) are not modelled and appear as `0`.
-/

namespace VolcanoAudio

/-! ## Progressive streaming schedule (`main.py` lines 42-43, 253-298) -/

/-- `PROGRESSIVE_CHUNK_SIZES_KB = [8, 16, 32, 64, 128, 256]` (line 42). -/
def PROGRESSIVE_CHUNK_SIZES_KB : List Nat := [8, 16, 32, 64, 128, 256]

/-- `REMAINING_CHUNK_KB = 512` (line 43). -/
def REMAINING_CHUNK_KB : Nat := 512

/-- The staircase `for kb in PROGRESSIVE_CHUNK_SIZES_KB` loop of
`stream_variant_from_r2` (lines 269-274 and 287-292): starting from
`offset`, for each entry `kb` it stops (`break`) if `offset >= total`,
otherwise yields `data[offset : offset + kb * 1024]` and advances the
offset.  Returns the yielded slices together with the final offset. -/
def streamStairs (data : List Nat) : Nat → List Nat → List (List Nat) × Nat
  | offset, [] => ([], offset)
  | offset, kb :: rest =>
    if data.length ≤ offset then ([], offset)
    else
      let sz := kb * 1024
      let r := streamStairs data (offset + sz) rest
      ((data.drop offset).take sz :: r.1, r.2)

/-- One step bound of the trailing `while offset < total` loop
(lines 275-278 and 293-296), with explicit fuel.  Each iteration yields
`data[offset : offset + 524288]` and advances the offset by `524288`;
since the offset grows by at least one byte per iteration, fuel
`data.length - offset` (supplied by `streamRemainder`) is always enough,
so this is exactly the source loop. -/
def streamRemainderGo (data : List Nat) : Nat → Nat → List (List Nat)
  | _, 0 => []
  | offset, fuel + 1 =>
    if offset < data.length then
      (data.drop offset).take (REMAINING_CHUNK_KB * 1024) ::
        streamRemainderGo data (offset + REMAINING_CHUNK_KB * 1024) fuel
    else []

/-- The trailing `while offset < total` loop of `stream_variant_from_r2`. -/
def streamRemainder (data : List Nat) (offset : Nat) : List (List Nat) :=
  streamRemainderGo data offset (data.length - offset)

/-- Progressive streaming of one blob (`stream_variant_from_r2`, single
object, lines 266-278; the identical per-chunk-object code at lines
284-296): the staircase loop from offset `0`, then the 512 KiB loop from
the offset where the staircase stopped. -/
def streamSingleBlob (data : List Nat) : List (List Nat) :=
  let s := streamStairs data 0 PROGRESSIVE_CHUNK_SIZES_KB
  s.1 ++ streamRemainder data s.2

/-- The `for key in keys` loop of the chunked branch (lines 282-296):
each underlying blob is streamed with `streamSingleBlob`, i.e. the
schedule restarts at the start of every blob. -/
def streamBlobSeq : List (List Nat) → List (List Nat)
  | [] => []
  | b :: bs => streamSingleBlob b ++ streamBlobSeq bs

/-- Modelled from the spec's words (§4.6, §8), for comparison with the
code-side streamer: given `n` bytes remaining and the staircase of range
sizes, emit each staircase size in turn (truncating the step that
exhausts the blob and skipping the rest once the blob is exhausted), then
emit fixed `524288`-byte ranges until the blob is exhausted, with a final
truncated remainder range. -/
def specScheduleGo : Nat → List Nat → List Nat
  | n, [] =>
    List.replicate (n / 524288) 524288 ++
      (if n % 524288 = 0 then [] else [n % 524288])
  | n, s :: rest =>
    if n = 0 then [] else if n ≤ s then [n] else s :: specScheduleGo (n - s) rest

/-- Modelled from the spec's words: the full staircase schedule for a
blob of `n` bytes. -/
def specSchedule (n : Nat) : List Nat :=
  specScheduleGo n [8192, 16384, 32768, 65536, 131072, 262144]

/-! ## SHA-256

`generate_cache_key` (main.py lines 45-48) is
`hashlib.sha256(key_string.encode()).hexdigest()[:16]`.  The hash is
implemented here in full over byte lists (`Nat` arithmetic, explicitly
reduced mod `2 ^ 32`).  The round and initialisation constants are
computed from their FIPS 180-4 definition (fractional parts of cube /
square roots of the first primes) rather than transcribed.  The
implementation reproduces the standard test vectors: `sha256 ""` is
`e3b0c44298fc1c149afbf4c8996fb92427ae41e4649b934ca495991b7852b855` and
`sha256 "abc"` is
`ba7816bf8f01cfea414140de5dae2223b00361a396177a9cb410ff61f20015ad`. -/

/-- Truncate to a 32-bit word. -/
def w32 (n : Nat) : Nat := n % 4294967296

/-- Right rotation of a 32-bit word. -/
def rotr32 (x n : Nat) : Nat := w32 ((x >>> n) ||| (x <<< (32 - n)))

def bsig0 (x : Nat) : Nat := (rotr32 x 2) ^^^ (rotr32 x 13) ^^^ (rotr32 x 22)

def bsig1 (x : Nat) : Nat := (rotr32 x 6) ^^^ (rotr32 x 11) ^^^ (rotr32 x 25)

def ssig0 (x : Nat) : Nat := (rotr32 x 7) ^^^ (rotr32 x 18) ^^^ (x >>> 3)

def ssig1 (x : Nat) : Nat := (rotr32 x 17) ^^^ (rotr32 x 19) ^^^ (x >>> 10)

def chF (x y z : Nat) : Nat := (x &&& y) ^^^ ((x ^^^ 4294967295) &&& z)

def majF (x y z : Nat) : Nat := (x &&& y) ^^^ (x &&& z) ^^^ (y &&& z)

/-- Binary-search integer cube root (enough fuel for any 256-bit input). -/
def icbrtGo : Nat → Nat → Nat → Nat → Nat
  | 0, lo, _, _ => lo
  | fuel + 1, lo, hi, t =>
    if hi ≤ lo + 1 then lo
    else
      let mid := (lo + hi) / 2
      if mid * mid * mid ≤ t then icbrtGo fuel mid hi t else icbrtGo fuel lo mid t

def icbrt (t : Nat) : Nat := icbrtGo 256 0 (t + 1) t

/-- The first 64 primes. -/
def sha256Primes : List Nat :=
  [2, 3, 5, 7, 11, 13, 17, 19, 23, 29, 31, 37, 41, 43, 47, 53, 59, 61, 67, 71,
   73, 79, 83, 89, 97, 101, 103, 107, 109, 113, 127, 131, 137, 139, 149, 151,
   157, 163, 167, 173, 179, 181, 191, 193, 197, 199, 211, 223, 227, 229, 233,
   239, 241, 251, 257, 263, 269, 271, 277, 281, 283, 293, 307, 311]

/-- Round constants: first 32 bits of the fractional parts of the cube
roots of the first 64 primes. -/
def shaK : List Nat := sha256Primes.map (fun p => icbrt (p * 2 ^ 96) % 4294967296)

/-- Initial hash: first 32 bits of the fractional parts of the square
roots of the first 8 primes. -/
def shaH0 : List Nat := (sha256Primes.take 8).map (fun p => Nat.sqrt (p * 2 ^ 64) % 4294967296)

structure Hash8 where
  a : Nat
  b : Nat
  c : Nat
  d : Nat
  e : Nat
  f : Nat
  g : Nat
  h : Nat
  deriving DecidableEq

def shaInit : Hash8 :=
  ⟨shaH0.getD 0 0, shaH0.getD 1 0, shaH0.getD 2 0, shaH0.getD 3 0,
   shaH0.getD 4 0, shaH0.getD 5 0, shaH0.getD 6 0, shaH0.getD 7 0⟩

def beWord (b0 b1 b2 b3 : Nat) : Nat := ((b0 * 256 + b1) * 256 + b2) * 256 + b3

def shaNextW (w : List Nat) : Nat :=
  w32 (ssig1 (w.getD (w.length - 2) 0) + w.getD (w.length - 7) 0 +
       ssig0 (w.getD (w.length - 15) 0) + w.getD (w.length - 16) 0)

def shaExtend : Nat → List Nat → List Nat
  | 0, w => w
  | n + 1, w => shaExtend n (w ++ [shaNextW w])

/-- The 64-word message schedule of one 64-byte block. -/
def shaSchedule (block : List Nat) : List Nat :=
  shaExtend 48 ((List.range 16).map (fun i =>
    beWord (block.getD (4 * i) 0) (block.getD (4 * i + 1) 0)
           (block.getD (4 * i + 2) 0) (block.getD (4 * i + 3) 0)))

def shaRound (s : Hash8) (kw : Nat) : Hash8 :=
  let t1 := w32 (s.h + bsig1 s.e + chF s.e s.f s.g + kw)
  let t2 := w32 (bsig0 s.a + majF s.a s.b s.c)
  ⟨w32 (t1 + t2), s.a, s.b, s.c, w32 (s.d + t1), s.e, s.f, s.g⟩

def shaCompress (s : Hash8) (block : List Nat) : Hash8 :=
  let fin := (List.zipWith (fun k wrd => k + wrd) shaK (shaSchedule block)).foldl shaRound s
  ⟨w32 (s.a + fin.a), w32 (s.b + fin.b), w32 (s.c + fin.c), w32 (s.d + fin.d),
   w32 (s.e + fin.e), w32 (s.f + fin.f), w32 (s.g + fin.g), w32 (s.h + fin.h)⟩

/-- Big-endian 8-byte encoding of the bit length. -/
def be64 (n : Nat) : List Nat :=
  [n / 2 ^ 56 % 256, n / 2 ^ 48 % 256, n / 2 ^ 40 % 256, n / 2 ^ 32 % 256,
   n / 2 ^ 24 % 256, n / 2 ^ 16 % 256, n / 2 ^ 8 % 256, n % 256]

/-- FIPS 180-4 padding: `0x80`, zeros to 56 mod 64, 8-byte bit length. -/
def shaPad (msg : List Nat) : List Nat :=
  msg ++ 128 :: (List.replicate ((64 - (msg.length + 9) % 64) % 64) 0 ++ be64 (8 * msg.length))

def shaBlocksGo : Nat → Hash8 → List Nat → Hash8
  | 0, s, _ => s
  | n + 1, s, l => shaBlocksGo n (shaCompress s (l.take 64)) (l.drop 64)

def sha256Words (msg : List Nat) : Hash8 :=
  shaBlocksGo ((shaPad msg).length / 64) shaInit (shaPad msg)

def hexChars : List Char := ("0123456789abcdef" : String).data

def hexDigit (n : Nat) : Char := hexChars.getD (n % 16) '0'

/-- The 8 lowercase hex digits of one 32-bit word. -/
def wordHex (w : Nat) : List Char :=
  [hexDigit (w / 2 ^ 28), hexDigit (w / 2 ^ 24), hexDigit (w / 2 ^ 20), hexDigit (w / 2 ^ 16),
   hexDigit (w / 2 ^ 12), hexDigit (w / 2 ^ 8), hexDigit (w / 2 ^ 4), hexDigit w]

/-- `hashlib.sha256(msg).hexdigest()` as a 64-character list. -/
def sha256HexChars (msg : List Nat) : List Char :=
  let s := sha256Words msg
  wordHex s.a ++ wordHex s.b ++ wordHex s.c ++ wordHex s.d ++
    wordHex s.e ++ wordHex s.f ++ wordHex s.g ++ wordHex s.h

/-- UTF-8 encoding of one character (Python `str.encode()`). -/
def utf8Bytes (c : Char) : List Nat :=
  let n := c.toNat
  if n < 128 then [n]
  else if n < 2048 then [192 + n / 64, 128 + n % 64]
  else if n < 65536 then [224 + n / 4096, 128 + n / 64 % 64, 128 + n % 64]
  else [240 + n / 262144, 128 + n / 4096 % 64, 128 + n / 64 % 64, 128 + n % 64]

/-- UTF-8 bytes of a string (Python `str.encode()`). -/
def strBytes (s : String) : List Nat := (s.toList.map utf8Bytes).flatten

/-- `generate_cache_key` (main.py lines 45-48): format the canonical
string `f"{volcano}_{hours_ago}h_ago_{duration_hours}h_duration"` and
take the first 16 hex characters of its SHA-256 hexdigest. -/
def generate_cache_key (volcano : String) (hours_ago duration_hours : Int) : String :=
  let key_string := s!"{volcano}_{hours_ago}h_ago_{duration_hours}h_duration"
  String.mk ((sha256HexChars (strBytes key_string)).take 16)

/-! ## Data model: store, configuration, world state

The object store (Cloudflare R2 through `boto3`) is an association list
from keys to stored objects.  External collaborators — the IRIS waveform
client and the gzip / blosc / zarr codec libraries — are fields of the
world state; the JSON side-objects are stored structurally (a stored
object that is not a `profJson` / `metaJson` models a body that
`json.loads` cannot read as the expected dict).  Every store / upstream
API call is recorded in an append-only effect log. -/

structure VolcanoConfig where
  network : String
  station : String
  location : Option String
  channel : String
  deriving DecidableEq

structure Waveform where
  samples : List Int
  sampleRate : ℚ
  deriving DecidableEq

structure VariantProfile where
  compress_ms : ℚ
  original_size_bytes : Nat
  compressed_size_bytes : Nat
  deriving DecidableEq

structure Profiles where
  iris_fetch_ms : ℚ
  preprocess_ms : ℚ
  variants : List (String × VariantProfile)
  deriving DecidableEq

structure Metadata where
  volcano : String
  sample_rate : ℚ
  total_samples : Nat
  duration_hours : Int
  hours_ago : Int
  deriving DecidableEq

inductive StoredObj where
  | bytes (b : List Nat)
  | metaJson (m : Metadata)
  | profJson (p : Profiles)
  | mseedObj (samples : List Int)
  deriving DecidableEq

/-- The `Size` field reported by `list_objects_v2` / `ContentLength` of
`head_object`.  The serialised size of the JSON / mseed side-objects is
not needed by any claim and is modelled as `0`, consistently with
`toBytes`. -/
def StoredObj.size : StoredObj → Nat
  | .bytes b => b.length
  | _ => 0

/-- The body returned by `get_object(...)["Body"].read()`. -/
def StoredObj.toBytes : StoredObj → List Nat
  | .bytes b => b
  | _ => []

/-- Association-list lookup (first match). -/
def alookup {α : Type} : List (String × α) → String → Option α
  | [], _ => none
  | (k, v) :: rest, key => if k = key then some v else alookup rest key

/-- `put_object`: overwrite in place, or append a fresh key. -/
def storePut : List (String × StoredObj) → String → StoredObj → List (String × StoredObj)
  | [], k, v => [(k, v)]
  | (k0, v0) :: rest, k, v =>
    if k0 = k then (k, v) :: rest else (k0, v0) :: storePut rest k v

inductive Effect where
  | headObj (key : String)
  | getObj (key : String)
  | putObj (key : String) (obj : StoredObj)
  | listObjs (pfx : String)
  | fetchWaveform (network station location channel : String) (startTime endTime : Int)
  deriving DecidableEq

/-- Compressor argument of `build_and_upload_zarr`: `None`,
`Zlib(level=1)` or `Blosc(cname="zstd", clevel=5, shuffle=SHUFFLE)`. -/
inductive ZarrComp where
  | noComp
  | zlib1
  | bloscZstd5
  deriving DecidableEq

structure World where
  store : List (String × StoredObj)
  upstream : String → String → String → String → Int → Int → Option Waveform
  now : Int
  volcanoes : List (String × VolcanoConfig)
  gzipC : List Nat → List Nat
  bloscC : List Int → List Nat
  zarrBuild : ZarrComp → List Int → List (String × List Nat)
  log : List Effect

inductive PyErr where
  | keyError (msg : String)
  | noData
  | noSuchKey (key : String)
  | valueError (msg : String)
  | typeError
  deriving DecidableEq

instance exceptDecEq {ε α : Type} [DecidableEq ε] [DecidableEq α] :
    DecidableEq (Except ε α)
  | .error a, .error b =>
    if h : a = b then .isTrue (by rw [h])
    else .isFalse (fun hc => by cases hc; exact h rfl)
  | .error _, .ok _ => .isFalse (fun hc => by cases hc)
  | .ok _, .error _ => .isFalse (fun hc => by cases hc)
  | .ok a, .ok b =>
    if h : a = b then .isTrue (by rw [h])
    else .isFalse (fun hc => by cases hc; exact h rfl)

def pyErrMsg : PyErr → String
  | .keyError v => s!"KeyError: {v}"
  | .noData => "No data available"
  | .noSuchKey k => s!"NoSuchKey: {k}"
  | .valueError m => m
  | .typeError => "TypeError: comparison of str and int"

/-- Python `x or default` on a request parameter: `None` and the empty
string are falsy. -/
def pyOr (x : Option String) (dflt : String) : String :=
  match x with
  | none => dflt
  | some s => if s = "" then dflt else s

/-- Python `str.lower()` (ASCII lowercasing; source identifiers are
ASCII). -/
def pyLower (s : String) : String := String.mk (s.data.map Char.toLower)

/-- `r2_key` (main.py lines 50-51):
`f"cache/{compression}/{storage}/{cache_key}{ext}"`. -/
def r2_key (cache_key compression storage ext : String) : String :=
  "cache/" ++ compression ++ "/" ++ storage ++ "/" ++ cache_key ++ ext

/-- The canonical single-object int16 artifact — the sentinel whose
presence short-circuits `ensure_cached_in_r2` (main.py line 89). -/
def sentinelKey (ck : String) : String := r2_key ck "int16" "raw" ".bin"

def profilesKey (ck : String) : String := "cache/metadata/" ++ ck ++ "_profiles.json"

def metadataKey (ck : String) : String := "cache/metadata/" ++ ck ++ ".json"

def mseedKey (ck : String) : String := "cache/mseed/" ++ ck ++ ".mseed"

/-! ## Preprocessing (main.py lines 151-160)

float64 arithmetic is idealised as exact rational arithmetic. -/

def maxAbsQ (l : List ℚ) : ℚ := (l.map abs).foldr max 0

/-- `np.mean` over the samples, as an exact rational. -/
def listMeanQ (l : List Int) : ℚ := (l.map (fun x : Int => (x : ℚ))).sum / l.length

/-- C-style float-to-int truncation toward zero. -/
def truncToZero (q : ℚ) : Int := if 0 ≤ q then ⌊q⌋ else ⌈q⌉

/-- Wrap-around of `astype(np.int16)` (two's complement). -/
def int16wrap (z : Int) : Int := (z + 32768) % 65536 - 32768

/-- The preprocessing step of `ensure_cached_in_r2` (main.py lines
152-157): subtract the mean, divide by the maximum absolute value when
it is positive, multiply by `32767.0`, convert to `int16`. -/
def normalizeInt16 (samples : List Int) : List Int :=
  let μ := listMeanQ samples
  let centered := samples.map (fun x : Int => (x : ℚ) - μ)
  let m := maxAbsQ centered
  let scaled :=
    if 0 < m then centered.map (fun q => q / m * 32767)
    else centered.map (fun q => q * 32767)
  scaled.map (fun q => int16wrap (truncToZero q))

/-- `np.int16(...).tobytes()`: little-endian two's-complement bytes. -/
def int16LE (l : List Int) : List Nat :=
  (l.map (fun z => [(z % 65536).toNat % 256, (z % 65536).toNat / 256])).flatten

/-! ## `ensure_cached_in_r2` (main.py lines 84-251) -/

/-- The upstream fetch with its in-source fallback (main.py lines
111-136): try IRIS for the requested window; on any exception retry once
with the window ending 24 hours ago and the configured default station
parameters.  `UTCDateTime()` is the world's `now` (called twice in the
source a few microseconds apart; the drift is not modelled). -/
def fetchWithFallback (w : World) (config : VolcanoConfig)
    (network station location channel : String) (hours_ago duration_hours : Int) :
    Option Waveform × World :=
  let endT := w.now - hours_ago * 3600
  let startT := endT - duration_hours * 3600
  let w1 := { w with log := w.log ++ [.fetchWaveform network station location channel startT endT] }
  match w.upstream network station location channel startT endT with
  | some wave => (some wave, w1)
  | none =>
    let endT2 := w.now - 24 * 3600
    let startT2 := endT2 - duration_hours * 3600
    let loc2 := config.location.getD "*"
    let w2 := { w1 with log := w1.log ++
      [.fetchWaveform config.network config.station loc2 config.channel startT2 endT2] }
    match w.upstream config.network config.station loc2 config.channel startT2 endT2 with
    | some wave => (some wave, w2)
    | none => (none, w2)

/-- The upload loop of `build_and_upload_zarr` (main.py lines 185-193):
uploads every file of the zarr directory under
`r2_key(cache_key, comp_label, "zarr", "/" + rel)` and accumulates the
total byte count. -/
def putZarrFilesGo (ck compLabel : String) :
    List (String × List Nat) → World → Nat × World
  | [], w => (0, w)
  | (rel, b) :: rest, w =>
    let key := r2_key ck compLabel "zarr" ("/" ++ rel)
    let w1 := { w with store := storePut w.store key (.bytes b),
                       log := w.log ++ [.putObj key (.bytes b)] }
    let r := putZarrFilesGo ck compLabel rest w1
    (b.length + r.1, r.2)

/-- `ensure_cached_in_r2` (main.py lines 84-251).  Returns
`(cache_key, profiles, metadata)`; `none` for a JSON side-object models
the empty dict `{}` substituted when the object is absent or unreadable.
Wall-clock profiling durations are modelled as `0`. -/
def ensure_cached_in_r2 (w : World) (volcano : String) (hours_ago duration_hours : Int)
    (network station location channel : Option String) :
    Except PyErr (String × Option Profiles × Option Metadata) × World :=
  let cache_key := generate_cache_key volcano hours_ago duration_hours
  let sk := sentinelKey cache_key
  let w0 := { w with log := w.log ++ [.headObj sk] }
  match alookup w.store sk with
  | some _ =>
    let pk := profilesKey cache_key
    let mdk := metadataKey cache_key
    let w1 := { w0 with log := w0.log ++ [Effect.getObj pk] }
    let profiles : Option Profiles :=
      match alookup w.store pk with
      | some (.profJson p) => some p
      | _ => none
    let w2 := { w1 with log := w1.log ++ [Effect.getObj mdk] }
    let metadata : Option Metadata :=
      match alookup w.store mdk with
      | some (.metaJson m) => some m
      | _ => none
    (.ok (cache_key, profiles, metadata), w2)
  | none =>
    match alookup w.volcanoes (pyLower volcano) with
    | none => (.error (.keyError volcano), w0)
    | some config =>
      let network := pyOr network config.network
      let station := pyOr station config.station
      let location := pyOr location (config.location.getD "*")
      let channel := pyOr channel config.channel
      match fetchWithFallback w0 config network station location channel hours_ago duration_hours with
      | (none, w1) => (.error .noData, w1)
      | (some wave, w1) =>
        let mk1 := mseedKey cache_key
        let w2 := { w1 with store := storePut w1.store mk1 (.mseedObj wave.samples),
                            log := w1.log ++ [.putObj mk1 (.mseedObj wave.samples)] }
        if wave.samples.isEmpty then
          (.error (.valueError "zero-size array to reduction operation"), w2)
        else
          let data_int16 := normalizeInt16 wave.samples
          let raw_bytes := int16LE data_int16
          let w3 := { w2 with store := storePut w2.store sk (.bytes raw_bytes),
                              log := w2.log ++ [.putObj sk (.bytes raw_bytes)] }
          let z1 := putZarrFilesGo cache_key "int16" (w.zarrBuild .noComp data_int16) w3
          let gz := w.gzipC raw_bytes
          let gk := r2_key cache_key "gzip" "raw" ".bin.gz"
          let w4 := { z1.2 with store := storePut z1.2.store gk (.bytes gz),
                                log := z1.2.log ++ [.putObj gk (.bytes gz)] }
          let z2 := putZarrFilesGo cache_key "gzip" (w.zarrBuild .zlib1 data_int16) w4
          let bl := w.bloscC data_int16
          let bk := r2_key cache_key "blosc" "raw" ".blosc"
          let w5 := { z2.2 with store := storePut z2.2.store bk (.bytes bl),
                                log := z2.2.log ++ [.putObj bk (.bytes bl)] }
          let z3 := putZarrFilesGo cache_key "blosc" (w.zarrBuild .bloscZstd5 data_int16) w5
          let profiles : Profiles :=
            { iris_fetch_ms := 0, preprocess_ms := 0,
              variants := [
                ("int16/raw", ⟨0, raw_bytes.length, raw_bytes.length⟩),
                ("int16/zarr", ⟨0, raw_bytes.length, z1.1⟩),
                ("gzip/raw", ⟨0, raw_bytes.length, gz.length⟩),
                ("gzip/zarr", ⟨0, raw_bytes.length, z2.1⟩),
                ("blosc/raw", ⟨0, raw_bytes.length, bl.length⟩),
                ("blosc/zarr", ⟨0, raw_bytes.length, z3.1⟩)] }
          let metadata : Metadata :=
            ⟨volcano, wave.sampleRate, data_int16.length, duration_hours, hours_ago⟩
          let mdk := metadataKey cache_key
          let pfk := profilesKey cache_key
          let w6 := { z3.2 with store := storePut z3.2.store mdk (.metaJson metadata),
                                log := z3.2.log ++ [Effect.putObj mdk (.metaJson metadata)] }
          let w7 := { w6 with store := storePut w6.store pfk (.profJson profiles),
                              log := w6.log ++ [Effect.putObj pfk (.profJson profiles)] }
          (.ok (cache_key, some profiles, some metadata), w7)

/-! ## `list_zarr_chunk_keys` (main.py lines 53-82) -/

/-- Stable insertion sort (Python `list.sort` is stable; a stable
insertion sort has the same input/output behaviour as timsort for a
total key ordering). -/
def insSorted {α : Type} (le : α → α → Bool) (x : α) : List α → List α
  | [] => [x]
  | y :: ys => if le y x && !(le x y) then y :: insSorted le x ys else x :: y :: ys

def isortBy {α : Type} (le : α → α → Bool) : List α → List α
  | [] => []
  | x :: xs => insSorted le x (isortBy le xs)

/-- Lexicographic comparison of character sequences (codepoint order),
the order `list_objects_v2` lists keys in and Python compares `str` by. -/
def charListLe : List Char → List Char → Bool
  | [], _ => true
  | _ :: _, [] => false
  | a :: as, b :: bs =>
    if a.toNat < b.toNat then true
    else if b.toNat < a.toNat then false
    else charListLe as bs

def strLe (a b : String) : Bool := charListLe a.data b.data

/-- All `(key, Size)` pairs under a prefix, in the lexicographic key
order `list_objects_v2` returns (the source's pagination loop
accumulates exactly this full listing). -/
def storeList (store : List (String × StoredObj)) (pfx : String) : List (String × Nat) :=
  isortBy (fun a b => strLe a.1 b.1)
    ((store.filter (fun kv => pfx.data.isPrefixOf kv.1.data)).map (fun kv => (kv.1, kv.2.size)))

/-- The segment after the last `'/'` (empty when the key ends in `'/'`). -/
def lastSeg : List Char → List Char → List Char
  | [], acc => acc
  | c :: rest, acc => if c = '/' then lastSeg rest [] else lastSeg rest (acc ++ [c])

/-- `key.split('/')[-1]`. -/
def zarrTail (k : String) : String := String.mk (lastSeg k.data [])

def pyDigitsVal : List Char → Nat → Option Nat
  | [], acc => some acc
  | '_' :: rest, acc =>
    match rest with
    | d :: _ => if d.isDigit then pyDigitsVal rest acc else none
    | [] => none
  | c :: rest, acc =>
    if c.isDigit then pyDigitsVal rest (acc * 10 + (c.toNat - 48)) else none

/-- CPython `int(str)`: optional surrounding whitespace, optional sign,
ASCII digits with optional single underscores between digits (non-ASCII
digits are not modelled; object keys are ASCII). -/
def pyParseInt (s : String) : Option Int :=
  let t := ((s.data.dropWhile Char.isWhitespace).reverse.dropWhile Char.isWhitespace).reverse
  let core : Bool × List Char :=
    match t with
    | '-' :: rest => (true, rest)
    | '+' :: rest => (false, rest)
    | _ => (false, t)
  match core.2 with
  | [] => none
  | c :: _ =>
    if c.isDigit then
      match pyDigitsVal core.2 0 with
      | some n => some (if core.1 then -(n : Int) else (n : Int))
      | none => none
    else none

/-- The `sort_key` of `list_zarr_chunk_keys` (main.py lines 75-80),
reduced to the int branch: `int(tail)` when it parses. -/
def chunkSortKeyInt (k : String) : Option Int := pyParseInt (zarrTail k)

def reservedZarrNames : List String := [".zarray", ".zattrs", ".zgroup"]

/-- `list_zarr_chunk_keys` (main.py lines 53-82): list keys under the
prefix, skip the three reserved descriptor names, then
`keys.sort(key=sort_key)` where `sort_key(k)` is `int(tail)` when that
parses and the tail string itself otherwise.  In Python 3 a comparison
sort over keys of mixed types raises `TypeError`: a listing containing
both an int-keyed and a str-keyed object always fails, because any
comparison sort must compare one of the int keys with one of the str
keys to order them. -/
def list_zarr_chunk_keys (store : List (String × StoredObj)) (pfx : String) :
    Except PyErr (List String) :=
  let keys := ((storeList store pfx).map Prod.fst).filter
    (fun k => decide (zarrTail k ∉ reservedZarrNames))
  let hasInt := keys.any (fun k => (chunkSortKeyInt k).isSome)
  let hasStr := keys.any (fun k => (chunkSortKeyInt k).isNone)
  if hasInt && hasStr then .error .typeError
  else if hasInt then
    .ok (isortBy (fun a b =>
      decide ((chunkSortKeyInt a).getD 0 ≤ (chunkSortKeyInt b).getD 0)) keys)
  else .ok (isortBy (fun a b => strLe (zarrTail a) (zarrTail b)) keys)

/-! ## `stream_variant_from_r2` (main.py lines 253-298) and the delivery
controller `stream_zarr` (main.py lines 734-829)

A stream result is the list of ranges actually emitted before the
generator either finishes (`none`) or raises (`some e`). -/

def extOfCompression (compression : String) : Option String :=
  if compression = "int16" then some ".bin"
  else if compression = "gzip" then some ".bin.gz"
  else if compression = "blosc" then some ".blosc"
  else none

def streamKeysGo (w : World) : List String → (List (List Nat) × Option PyErr) × World
  | [] => (([], none), w)
  | k :: ks =>
    let w1 := { w with log := w.log ++ [.getObj k] }
    match alookup w.store k with
    | none => (([], some (.noSuchKey k)), w1)
    | some obj =>
      let r := streamKeysGo w1 ks
      ((streamSingleBlob obj.toBytes ++ r.1.1, r.1.2), r.2)

/-- `stream_variant_from_r2` (main.py lines 253-298). -/
def stream_variant_from_r2 (w : World) (cache_key storage compression : String) :
    (List (List Nat) × Option PyErr) × World :=
  if storage = "raw" then
    match extOfCompression compression with
    | none => (([], some (.valueError "Unsupported compression")), w)
    | some ext =>
      let key := r2_key cache_key compression storage ext
      let w1 := { w with log := w.log ++ [.getObj key] }
      match alookup w.store key with
      | none => (([], some (.noSuchKey key)), w1)
      | some obj => ((streamSingleBlob obj.toBytes, none), w1)
  else if storage = "zarr" then
    let pfx := r2_key cache_key compression storage "/data.zarr/"
    let w1 := { w with log := w.log ++ [.listObjs pfx] }
    match list_zarr_chunk_keys w.store pfx with
    | .error e => (([], some e), w1)
    | .ok keys => streamKeysGo w1 keys
  else (([], some (.valueError "Unsupported storage")), w)

inductive HttpResponse where
  | errorResp (status : Nat) (msg : String)
  | streamResp (contentLength : Nat) (body : List (List Nat)) (aborted : Option PyErr)
  deriving DecidableEq

/-- The `/api/stream/<volcano>/<hours>` controller `stream_zarr`
(main.py lines 734-829): check the volcano, read `storage` /
`compression` (`none` aliased to `int16`), run `ensure_cached_in_r2`,
compute the Content-Length commitment, then stream.  An exception from
`ensure_cached_in_r2` or the `head_object` size probe surfaces as the
route's 500 handler; invalid storage or (for raw) invalid compression
returns 400 — after `ensure_cached_in_r2` has already run. -/
def stream_zarr (w : World) (volcano : String) (hours : Nat)
    (storageQ compressionQ : Option String) (hours_ago : Int)
    (network station location channel : Option String) : HttpResponse × World :=
  match alookup w.volcanoes (pyLower volcano) with
  | none => (.errorResp 404 s!"Unknown volcano: {volcano}", w)
  | some _ =>
    let storage := storageQ.getD "raw"
    let compression0 := compressionQ.getD "gzip"
    let compression := if compression0 = "none" then "int16" else compression0
    match ensure_cached_in_r2 w (pyLower volcano) hours_ago (hours : Int)
        network station location channel with
    | (.error e, w1) => (.errorResp 500 (pyErrMsg e), w1)
    | (.ok (cache_key, _profiles, _metadata), w1) =>
      if storage = "raw" then
        match extOfCompression compression with
        | none => (.errorResp 400 "Unsupported compression", w1)
        | some ext =>
          let key := r2_key cache_key compression storage ext
          let w2 := { w1 with log := w1.log ++ [.headObj key] }
          match alookup w1.store key with
          | none => (.errorResp 500 (pyErrMsg (.noSuchKey key)), w2)
          | some obj =>
            let r := stream_variant_from_r2 w2 cache_key storage compression
            (.streamResp obj.size r.1.1 r.1.2, r.2)
      else if storage = "zarr" then
        let pfx := r2_key cache_key compression storage "/data.zarr/"
        let w2 := { w1 with log := w1.log ++ [.listObjs pfx] }
        let total := (((storeList w1.store pfx).filter
          (fun kv => decide (zarrTail kv.1 ∉ reservedZarrNames))).map Prod.snd).sum
        let r := stream_variant_from_r2 w2 cache_key storage compression
        (.streamResp total r.1.1 r.1.2, r.2)
      else (.errorResp 400 "Unsupported storage", w1)

/-! ## Derived observations used by the theorems -/

/-- The JSON side-object load of the hit path (main.py lines 90-99):
the stored profiles dict when it is present and readable, else the empty
dict (modelled as `none`). -/
def loadedProfiles (store : List (String × StoredObj)) (ck : String) : Option Profiles :=
  match alookup store (profilesKey ck) with
  | some (.profJson p) => some p
  | _ => none

/-- The metadata side-object load of the hit path (main.py lines 95-99). -/
def loadedMetadata (store : List (String × StoredObj)) (ck : String) : Option Metadata :=
  match alookup store (metadataKey ck) with
  | some (.metaJson m) => some m
  | _ => none

def isFetchEffect : Effect → Bool
  | .fetchWaveform _ _ _ _ _ _ => true
  | _ => false

/-- The upstream fetch-call counter: `get_waveforms` calls recorded in
the effect log. -/
def fetchCount (w : World) : Nat := (w.log.filter isFetchEffect).length

def mkPutE (kv : String × StoredObj) : Effect := .putObj kv.1 kv.2

/-- Apply a sequence of `put_object` writes in order. -/
def storePutList (s : List (String × StoredObj)) :
    List (String × StoredObj) → List (String × StoredObj)
  | [] => s
  | kv :: rest => storePutList (storePut s kv.1 kv.2) rest

/-- The keyed objects uploaded by `build_and_upload_zarr` for one
variant. -/
def zarrPuts (ck label : String) (files : List (String × List Nat)) :
    List (String × StoredObj) :=
  files.map (fun f => (r2_key ck label "zarr" ("/" ++ f.1), StoredObj.bytes f.2))

/-- The metadata dict persisted by the miss path (main.py lines
241-247). -/
def missMetadata (volcano : String) (hours_ago duration_hours : Int) (wave : Waveform) :
    Metadata :=
  ⟨volcano, wave.sampleRate, (normalizeInt16 wave.samples).length, duration_hours, hours_ago⟩

/-- The profiling dict persisted by the miss path (durations modelled as
`0`). -/
def missProfiles (w : World) (wave : Waveform) : Profiles :=
  let d := normalizeInt16 wave.samples
  let rb := int16LE d
  { iris_fetch_ms := 0, preprocess_ms := 0,
    variants := [
      ("int16/raw", ⟨0, rb.length, rb.length⟩),
      ("int16/zarr", ⟨0, rb.length, ((w.zarrBuild .noComp d).map (fun f => f.2.length)).sum⟩),
      ("gzip/raw", ⟨0, rb.length, (w.gzipC rb).length⟩),
      ("gzip/zarr", ⟨0, rb.length, ((w.zarrBuild .zlib1 d).map (fun f => f.2.length)).sum⟩),
      ("blosc/raw", ⟨0, rb.length, (w.bloscC d).length⟩),
      ("blosc/zarr", ⟨0, rb.length, ((w.zarrBuild .bloscZstd5 d).map (fun f => f.2.length)).sum⟩)] }

/-- The complete ordered sequence of `put_object` writes performed by the
miss path of `ensure_cached_in_r2`: archival mseed copy, the int16/raw
sentinel, the three zarr variants' files, the gzip/raw and blosc/raw
blobs, and the two JSON side-objects — every variant encoding the one
int16 array `normalizeInt16 wave.samples`. -/
def missPuts (w : World) (ck volcano : String) (hours_ago duration_hours : Int)
    (wave : Waveform) : List (String × StoredObj) :=
  let d := normalizeInt16 wave.samples
  let rb := int16LE d
  [(mseedKey ck, StoredObj.mseedObj wave.samples), (sentinelKey ck, StoredObj.bytes rb)]
  ++ zarrPuts ck "int16" (w.zarrBuild .noComp d)
  ++ [(r2_key ck "gzip" "raw" ".bin.gz", StoredObj.bytes (w.gzipC rb))]
  ++ zarrPuts ck "gzip" (w.zarrBuild .zlib1 d)
  ++ [(r2_key ck "blosc" "raw" ".blosc", StoredObj.bytes (w.bloscC d))]
  ++ zarrPuts ck "blosc" (w.zarrBuild .bloscZstd5 d)
  ++ [(metadataKey ck, StoredObj.metaJson (missMetadata volcano hours_ago duration_hours wave)),
      (profilesKey ck, StoredObj.profJson (missProfiles w wave))]

/-! ## Theorems -/

/-- A world whose store already holds the sentinel for the request
`("kilauea", 12, 24)`. -/
def hitWorld : World :=
  { store := [(sentinelKey (generate_cache_key "kilauea" 12 24), StoredObj.bytes [1, 2, 3])],
    upstream := fun _ _ _ _ _ _ => none,
    now := 0,
    volcanoes := [("kilauea", ⟨"HV", "HLPD", some "", "HHZ"⟩)],
    gzipC := fun b => b,
    bloscC := fun d => int16LE d,
    zarrBuild := fun _ _ => [],
    log := [] }

/-- The merged trace returned by the fallback fetch of the retry
counterexample. -/
def retryWave : Waveform := ⟨[5, 0, 0, 5], 100⟩

/-- A world where the upstream has no data for the requested window but
does have data for the window ending 24 hours before now. -/
def retryWorld : World :=
  { store := [],
    upstream := fun _ _ _ _ _ endT => if endT = -86400 then some retryWave else none,
    now := 0,
    volcanoes := [("kilauea", ⟨"HV", "HLPD", some "", "HHZ"⟩)],
    gzipC := fun b => b,
    bloscC := fun d => int16LE d,
    zarrBuild := fun _ _ => [],
    log := [] }

/-- A world where the upstream has no data at all. -/
def failWorld : World :=
  { store := [],
    upstream := fun _ _ _ _ _ _ => none,
    now := 0,
    volcanoes := [("kilauea", ⟨"HV", "HLPD", some "", "HHZ"⟩)],
    gzipC := fun b => b,
    bloscC := fun d => int16LE d,
    zarrBuild := fun _ _ => [],
    log := [] }

/-- Modelled from the spec's words (§4.2, C8), for comparison with the
code-side `normalizeInt16`: subtract the array's mean, divide by the
maximum absolute value of the centered array, multiply by 32767, and
truncate to int16. -/
def specNormalize (samples : List Int) : List Int :=
  samples.map (fun x : Int =>
    truncToZero (((x : ℚ) - listMeanQ samples) /
      maxAbsQ (samples.map (fun y : Int => (y : ℚ) - listMeanQ samples)) * 32767))

/-- A world whose upstream always returns the three samples `[2, 0, 4]`
(centered: `[-2, 0, 2]`, peak `2`). -/
def normWorld : World :=
  { store := [],
    upstream := fun _ _ _ _ _ _ => some ⟨[2, 0, 4], 50⟩,
    now := 0,
    volcanoes := [("kilauea", ⟨"HV", "HLPD", some "", "HHZ"⟩)],
    gzipC := fun b => 0 :: b,
    bloscC := fun d => int16LE d,
    zarrBuild := fun _ d => [("data.zarr/0", int16LE d), ("data.zarr/.zarray", [123])],
    log := [] }

/-- A world whose upstream always returns the constant trace `[7, 7, 7]`
(centered identically zero). -/
def zeroWorld : World :=
  { store := [],
    upstream := fun _ _ _ _ _ _ => some ⟨[7, 7, 7], 50⟩,
    now := 0,
    volcanoes := [("kilauea", ⟨"HV", "HLPD", some "", "HHZ"⟩)],
    gzipC := fun b => 0 :: b,
    bloscC := fun d => int16LE d,
    zarrBuild := fun _ d => [("data.zarr/0", int16LE d), ("data.zarr/.zarray", [123])],
    log := [] }

/-- A populated store whose gzip/zarr chunk listing mixes numeric and
non-numeric chunk tails (`1`, `10`, `2`, `abc`) next to the reserved
`.zarray` descriptor. -/
def mixStore (ck : String) : List (String × StoredObj) :=
  [(sentinelKey ck, StoredObj.bytes [1, 2, 3]),
   (r2_key ck "gzip" "zarr" "/data.zarr/" ++ "1", StoredObj.bytes [4]),
   (r2_key ck "gzip" "zarr" "/data.zarr/" ++ "10", StoredObj.bytes [5]),
   (r2_key ck "gzip" "zarr" "/data.zarr/" ++ "2", StoredObj.bytes [6]),
   (r2_key ck "gzip" "zarr" "/data.zarr/" ++ "abc", StoredObj.bytes [7]),
   (r2_key ck "gzip" "zarr" "/data.zarr/" ++ ".zarray", StoredObj.bytes [8])]

/-- A delivery world populated for the key of `kilauea, 12h ago, 24h`,
whose chunked gzip listing mixes numeric and non-numeric chunk tails. -/
def zarrMixWorld : World :=
  { store := mixStore (generate_cache_key "kilauea" 12 24),
    upstream := fun _ _ _ _ _ _ => none,
    now := 0,
    volcanoes := [("kilauea", ⟨"HV", "HLPD", some "", "HHZ"⟩)],
    gzipC := fun b => b,
    bloscC := fun d => int16LE d,
    zarrBuild := fun _ _ => [],
    log := [] }

/-- A populated world carrying the raw gzip blob `[9, 9]` for the key of
`kilauea, 12h ago, 24h`. -/
def rawHitWorld : World :=
  { store := [(sentinelKey (generate_cache_key "kilauea" 12 24), StoredObj.bytes [1, 2, 3]),
      (r2_key (generate_cache_key "kilauea" 12 24) "gzip" "raw" ".bin.gz",
       StoredObj.bytes [9, 9])],
    upstream := fun _ _ _ _ _ _ => none,
    now := 0,
    volcanoes := [("kilauea", ⟨"HV", "HLPD", some "", "HHZ"⟩)],
    gzipC := fun b => b,
    bloscC := fun d => int16LE d,
    zarrBuild := fun _ _ => [],
    log := [] }



theorem alookup_cons {α : Type} (k0 key : String) (v : α) (rest : List (String × α)) :
    alookup ((k0, v) :: rest) key = if k0 = key then some v else alookup rest key := rfl

theorem storePut_lookup_self (s : List (String × StoredObj)) (k : String) (v : StoredObj) :
    alookup (storePut s k v) k = some v := by
  induction s with
  | nil => simp [storePut, alookup]
  | cons kv rest ih =>
    obtain ⟨k0, v0⟩ := kv
    simp only [storePut]
    by_cases h : k0 = k
    · simp [h, alookup]
    · simp [h, alookup, ih]

theorem storePut_lookup_ne (s : List (String × StoredObj)) (k k' : String) (v : StoredObj)
    (h : k ≠ k') : alookup (storePut s k v) k' = alookup s k' := by
  induction s with
  | nil => simp [storePut, alookup, h]
  | cons kv rest ih =>
    obtain ⟨k0, v0⟩ := kv
    simp only [storePut]
    by_cases h0 : k0 = k
    · subst h0
      simp [alookup, h]
    · simp only [if_neg h0, alookup]
      by_cases h1 : k0 = k'
      · simp [h1]
      · simp [h1, ih]

theorem storePutList_nil (s : List (String × StoredObj)) : storePutList s [] = s := rfl

theorem storePutList_cons (s : List (String × StoredObj)) (kv : String × StoredObj)
    (rest : List (String × StoredObj)) :
    storePutList s (kv :: rest) = storePutList (storePut s kv.1 kv.2) rest := rfl

theorem storePutList_append (s : List (String × StoredObj)) (l1 l2 : List (String × StoredObj)) :
    storePutList s (l1 ++ l2) = storePutList (storePutList s l1) l2 := by
  induction l1 generalizing s with
  | nil => rfl
  | cons kv rest ih => simp [storePutList, ih]

theorem storePutList_lookup_ne (s : List (String × StoredObj)) (l : List (String × StoredObj))
    (k : String) (h : ∀ kv ∈ l, kv.1 ≠ k) :
    alookup (storePutList s l) k = alookup s k := by
  induction l generalizing s with
  | nil => rfl
  | cons kv rest ih =>
    simp only [storePutList]
    rw [ih _ (fun kv hkv => h kv (List.mem_cons_of_mem _ hkv)),
      storePut_lookup_ne _ _ _ _ (h kv (List.mem_cons_self _ _))]

/-- Two appended strings differ whenever their left parts differ at a
common character position. -/
theorem string_append_ne_of_getD_ne (a b x y : String) (i : Nat)
    (ha : i < a.data.length) (hb : i < b.data.length)
    (hne : a.data.getD i ' ' ≠ b.data.getD i ' ') :
    a ++ x ≠ b ++ y := by
  intro h
  have hd : a.data ++ x.data = b.data ++ y.data := by
    have : (a ++ x).data = (b ++ y).data := by rw [h]
    simpa using this
  have h1 : (a.data ++ x.data).getD i ' ' = (b.data ++ y.data).getD i ' ' := by rw [hd]
  rw [List.getD_append _ _ _ _ ha, List.getD_append _ _ _ _ hb] at h1
  exact hne h1

theorem string_eq_of_data {s t : String} (h : s.data = t.data) : s = t := by
  cases s
  cases t
  exact congrArg String.mk h

theorem sentinelKey_eq (ck : String) :
    sentinelKey ck = "cache/int16/raw/" ++ (ck ++ ".bin") := by
  apply string_eq_of_data
  show ("cache/".data ++ "int16".data ++ "/".data ++ "raw".data ++ "/".data ++ ck.data)
      ++ ".bin".data = "cache/int16/raw/".data ++ (ck.data ++ ".bin".data)
  simp only [List.append_assoc]
  rfl

theorem gzipRawKey_eq (ck : String) :
    r2_key ck "gzip" "raw" ".bin.gz" = "cache/gzip/raw/" ++ (ck ++ ".bin.gz") := by
  apply string_eq_of_data
  show ("cache/".data ++ "gzip".data ++ "/".data ++ "raw".data ++ "/".data ++ ck.data)
      ++ ".bin.gz".data = "cache/gzip/raw/".data ++ (ck.data ++ ".bin.gz".data)
  simp only [List.append_assoc]
  rfl

theorem bloscRawKey_eq (ck : String) :
    r2_key ck "blosc" "raw" ".blosc" = "cache/blosc/raw/" ++ (ck ++ ".blosc") := by
  apply string_eq_of_data
  show ("cache/".data ++ "blosc".data ++ "/".data ++ "raw".data ++ "/".data ++ ck.data)
      ++ ".blosc".data = "cache/blosc/raw/".data ++ (ck.data ++ ".blosc".data)
  simp only [List.append_assoc]
  rfl

theorem zarrKey_eq (ck label ext : String) :
    r2_key ck label "zarr" ext =
      ("cache/" ++ label ++ "/zarr/") ++ (ck ++ ext) := by
  apply string_eq_of_data
  show ("cache/".data ++ label.data ++ "/".data ++ "zarr".data ++ "/".data ++ ck.data)
      ++ ext.data = ("cache/".data ++ label.data ++ "/zarr/".data) ++ (ck.data ++ ext.data)
  simp only [List.append_assoc]
  rfl

theorem zarrKey_int16_eq (ck ext : String) :
    r2_key ck "int16" "zarr" ext = "cache/int16/zarr/" ++ (ck ++ ext) := by
  rw [zarrKey_eq]
  rfl

theorem zarrKey_gzip_eq (ck ext : String) :
    r2_key ck "gzip" "zarr" ext = "cache/gzip/zarr/" ++ (ck ++ ext) := by
  rw [zarrKey_eq]
  rfl

theorem zarrKey_blosc_eq (ck ext : String) :
    r2_key ck "blosc" "zarr" ext = "cache/blosc/zarr/" ++ (ck ++ ext) := by
  rw [zarrKey_eq]
  rfl

theorem profilesKey_eq (ck : String) :
    profilesKey ck = "cache/metadata/" ++ (ck ++ "_profiles.json") := by
  apply string_eq_of_data
  show ("cache/metadata/".data ++ ck.data) ++ "_profiles.json".data =
    "cache/metadata/".data ++ (ck.data ++ "_profiles.json".data)
  simp only [List.append_assoc]

theorem metadataKey_eq (ck : String) :
    metadataKey ck = "cache/metadata/" ++ (ck ++ ".json") := by
  apply string_eq_of_data
  show ("cache/metadata/".data ++ ck.data) ++ ".json".data =
    "cache/metadata/".data ++ (ck.data ++ ".json".data)
  simp only [List.append_assoc]

theorem mseedKey_eq (ck : String) :
    mseedKey ck = "cache/mseed/" ++ (ck ++ ".mseed") := by
  apply string_eq_of_data
  show ("cache/mseed/".data ++ ck.data) ++ ".mseed".data =
    "cache/mseed/".data ++ (ck.data ++ ".mseed".data)
  simp only [List.append_assoc]

theorem zarrKey_int16_ne_sentinel (ck ck' ext : String) :
    r2_key ck "int16" "zarr" ext ≠ sentinelKey ck' := by
  rw [zarrKey_int16_eq, sentinelKey_eq]
  exact string_append_ne_of_getD_ne _ _ _ _ 12 (by decide) (by decide) (by decide)

theorem zarrKey_gzip_ne_sentinel (ck ck' ext : String) :
    r2_key ck "gzip" "zarr" ext ≠ sentinelKey ck' := by
  rw [zarrKey_gzip_eq, sentinelKey_eq]
  exact string_append_ne_of_getD_ne _ _ _ _ 6 (by decide) (by decide) (by decide)

theorem zarrKey_blosc_ne_sentinel (ck ck' ext : String) :
    r2_key ck "blosc" "zarr" ext ≠ sentinelKey ck' := by
  rw [zarrKey_blosc_eq, sentinelKey_eq]
  exact string_append_ne_of_getD_ne _ _ _ _ 6 (by decide) (by decide) (by decide)

theorem gzipRawKey_ne_sentinel (ck ck' : String) :
    r2_key ck "gzip" "raw" ".bin.gz" ≠ sentinelKey ck' := by
  rw [gzipRawKey_eq, sentinelKey_eq]
  exact string_append_ne_of_getD_ne _ _ _ _ 6 (by decide) (by decide) (by decide)

theorem bloscRawKey_ne_sentinel (ck ck' : String) :
    r2_key ck "blosc" "raw" ".blosc" ≠ sentinelKey ck' := by
  rw [bloscRawKey_eq, sentinelKey_eq]
  exact string_append_ne_of_getD_ne _ _ _ _ 6 (by decide) (by decide) (by decide)

theorem metadataKey_ne_sentinel (ck ck' : String) :
    metadataKey ck ≠ sentinelKey ck' := by
  rw [metadataKey_eq, sentinelKey_eq]
  exact string_append_ne_of_getD_ne _ _ _ _ 6 (by decide) (by decide) (by decide)

theorem profilesKey_ne_sentinel (ck ck' : String) :
    profilesKey ck ≠ sentinelKey ck' := by
  rw [profilesKey_eq, sentinelKey_eq]
  exact string_append_ne_of_getD_ne _ _ _ _ 6 (by decide) (by decide) (by decide)

theorem profilesKey_ne_metadataKey (ck : String) :
    profilesKey ck ≠ metadataKey ck := by
  intro h
  rw [profilesKey_eq, metadataKey_eq] at h
  have hlen := congrArg String.length h
  simp only [String.length_append,
    show ("_profiles.json" : String).length = 14 from rfl,
    show (".json" : String).length = 5 from rfl] at hlen
  omega

theorem streamRemainderGo_flatten (data : List Nat) :
    ∀ fuel offset, data.length ≤ offset + fuel →
      (streamRemainderGo data offset fuel).flatten = data.drop offset := by
  intro fuel
  induction fuel with
  | zero =>
    intro offset h
    simp only [streamRemainderGo, List.flatten_nil]
    exact (List.drop_eq_nil_of_le (by omega)).symm
  | succ n ih =>
    intro offset h
    simp only [streamRemainderGo]
    by_cases hlt : offset < data.length
    · simp only [if_pos hlt, List.flatten_cons]
      rw [ih (offset + REMAINING_CHUNK_KB * 1024)
        (by have : (512 : Nat) ≤ REMAINING_CHUNK_KB * 1024 := by norm_num [REMAINING_CHUNK_KB]
            omega)]
      exact List.drop_take_append_drop data offset (REMAINING_CHUNK_KB * 1024)
    · simp only [if_neg hlt, List.flatten_nil]
      exact (List.drop_eq_nil_of_le (by omega)).symm

theorem streamRemainderGo_sizes (data : List Nat) :
    ∀ fuel offset, data.length ≤ offset + fuel →
      (streamRemainderGo data offset fuel).map List.length =
        specScheduleGo (data.length - offset) [] := by
  intro fuel
  induction fuel with
  | zero =>
    intro offset h
    have h0 : data.length - offset = 0 := by omega
    simp [streamRemainderGo, specScheduleGo, h0]
  | succ n ih =>
    intro offset h
    by_cases hlt : offset < data.length
    · have hRB : REMAINING_CHUNK_KB * 1024 = 524288 := by norm_num [REMAINING_CHUNK_KB]
      have hrem : data.length ≤ (offset + REMAINING_CHUNK_KB * 1024) + n := by omega
      simp only [streamRemainderGo, if_pos hlt, List.map_cons, ih _ hrem]
      have hlen : ((data.drop offset).take (REMAINING_CHUNK_KB * 1024)).length =
          min (REMAINING_CHUNK_KB * 1024) (data.length - offset) := by
        simp [List.length_take]
      rw [hlen, hRB]
      set r := data.length - offset with hr
      have hrpos : 0 < r := by omega
      by_cases hbig : 524288 ≤ r
      · have hmin : min 524288 r = 524288 := by omega
        have hsub : data.length - (offset + 524288) = r - 524288 := by omega
        rw [hmin, hsub]
        simp only [specScheduleGo]
        have hdiv : r / 524288 = (r - 524288) / 524288 + 1 := by
          rw [Nat.div_eq_sub_div (by norm_num) (by omega)]
        have hmod : r % 524288 = (r - 524288) % 524288 := by
          rw [Nat.mod_eq_sub_mod (by omega)]
        rw [hdiv, hmod, List.replicate_succ, List.cons_append]
      · have hmin : min 524288 r = r := by omega
        have hsub : data.length - (offset + 524288) = 0 := by omega
        rw [hmin, hsub]
        simp only [specScheduleGo]
        have hdiv : r / 524288 = 0 := Nat.div_eq_of_lt (by omega)
        have hmod : r % 524288 = r := Nat.mod_eq_of_lt (by omega)
        rw [hdiv, hmod, if_neg (by omega : ¬ r = 0), List.replicate_zero,
          List.nil_append, if_pos trivial, List.nil_append]
    · have h0 : data.length - offset = 0 := by omega
      simp [streamRemainderGo, if_neg hlt, specScheduleGo, h0]

theorem streamStairs_final_ge (data : List Nat) :
    ∀ kbs offset, offset ≤ (streamStairs data offset kbs).2 := by
  intro kbs
  induction kbs with
  | nil => intro offset; simp [streamStairs]
  | cons kb rest ih =>
    intro offset
    simp only [streamStairs]
    by_cases h : data.length ≤ offset
    · simp [h]
    · simp only [if_neg h]
      have := ih (offset + kb * 1024)
      omega

theorem streamStairs_flatten (data : List Nat) :
    ∀ kbs offset,
      (streamStairs data offset kbs).1.flatten ++
          data.drop (streamStairs data offset kbs).2 = data.drop offset := by
  intro kbs
  induction kbs with
  | nil => intro offset; simp [streamStairs]
  | cons kb rest ih =>
    intro offset
    simp only [streamStairs]
    by_cases h : data.length ≤ offset
    · simp [h]
    · simp only [if_neg h, List.flatten_cons, List.append_assoc]
      rw [ih (offset + kb * 1024)]
      exact List.drop_take_append_drop data offset (kb * 1024)

theorem streamStairs_sizes (data : List Nat) :
    ∀ kbs offset,
      (streamStairs data offset kbs).1.map List.length ++
          specScheduleGo (data.length - (streamStairs data offset kbs).2) [] =
        specScheduleGo (data.length - offset) (kbs.map (· * 1024)) := by
  intro kbs
  induction kbs with
  | nil => intro offset; simp [streamStairs]
  | cons kb rest ih =>
    intro offset
    simp only [streamStairs, List.map_cons]
    by_cases h : data.length ≤ offset
    · have h0 : data.length - offset = 0 := by omega
      simp [h, h0, specScheduleGo]
    · simp only [if_neg h, List.map_cons, List.cons_append]
      have hlen : ((data.drop offset).take (kb * 1024)).length =
          min (kb * 1024) (data.length - offset) := by
        simp [List.length_take]
      rw [hlen, ih (offset + kb * 1024)]
      set r := data.length - offset with hr
      have hrpos : 0 < r := by omega
      by_cases hble : r ≤ kb * 1024
      · have hmin : min (kb * 1024) r = r := by omega
        have hsub : data.length - (offset + kb * 1024) = 0 := by omega
        rw [hmin, hsub]
        have hempty : ∀ l : List Nat, specScheduleGo 0 l = [] := by
          intro l
          cases l with
          | nil => simp [specScheduleGo]
          | cons a t => simp [specScheduleGo]
        rw [hempty]
        simp only [specScheduleGo]
        rw [if_neg (by omega : ¬ r = 0), if_pos hble]
      · have hmin : min (kb * 1024) r = kb * 1024 := by omega
        have hsub : data.length - (offset + kb * 1024) = r - kb * 1024 := by omega
        rw [hmin, hsub]
        simp only [specScheduleGo]
        have : ¬ r = 0 := by omega
        simp [this, hble]

theorem streamSingleBlob_flatten (data : List Nat) :
    (streamSingleBlob data).flatten = data := by
  have h1 := streamStairs_flatten data PROGRESSIVE_CHUNK_SIZES_KB 0
  have h2 := streamRemainderGo_flatten data
    (data.length - (streamStairs data 0 PROGRESSIVE_CHUNK_SIZES_KB).2)
    (streamStairs data 0 PROGRESSIVE_CHUNK_SIZES_KB).2 (by omega)
  simp only [streamSingleBlob, streamRemainder, List.flatten_append]
  rw [h2]
  simpa using h1

theorem streamSingleBlob_sizes (data : List Nat) :
    (streamSingleBlob data).map List.length = specSchedule data.length := by
  have h1 := streamStairs_sizes data PROGRESSIVE_CHUNK_SIZES_KB 0
  have h2 := streamRemainderGo_sizes data
    (data.length - (streamStairs data 0 PROGRESSIVE_CHUNK_SIZES_KB).2)
    (streamStairs data 0 PROGRESSIVE_CHUNK_SIZES_KB).2 (by omega)
  simp only [streamSingleBlob, streamRemainder, List.map_append]
  rw [h2]
  simpa [PROGRESSIVE_CHUNK_SIZES_KB, specSchedule] using h1

theorem hexDigit_mem_hexChars (n : Nat) : hexDigit n ∈ hexChars := by
  have h : n % 16 < 16 := Nat.mod_lt _ (by norm_num)
  unfold hexDigit
  set m := n % 16 with hm
  interval_cases m <;> decide

theorem wordHex_mem_hexChars (w : Nat) : ∀ c ∈ wordHex w, c ∈ hexChars := by
  intro c hc
  simp only [wordHex, List.mem_cons, List.not_mem_nil, or_false] at hc
  rcases hc with h | h | h | h | h | h | h | h <;>
    (subst h; exact hexDigit_mem_hexChars _)

theorem sha256HexChars_length (msg : List Nat) : (sha256HexChars msg).length = 64 := by
  simp [sha256HexChars, wordHex]

theorem sha256HexChars_mem (msg : List Nat) : ∀ c ∈ sha256HexChars msg, c ∈ hexChars := by
  intro c hc
  simp only [sha256HexChars, List.mem_append] at hc
  rcases hc with ((((((h | h) | h) | h) | h) | h) | h) | h <;>
    exact wordHex_mem_hexChars _ _ h

/-- Claim C2: the cache key is a pure deterministic function of exactly
`(sourceId, hoursAgo, durationHours)`: a 16-hex-character digest from a
collision-resistant cryptographic hash (SHA-256) of the canonical string
built from the three fields; equal inputs always yield equal keys, and
the embedding of `generate_cache_key` is a pure function with no process
state or time input. -/
theorem cache_key_deriver_correct :
    ∀ (volcano : String) (hours_ago duration_hours : Int),
      (generate_cache_key volcano hours_ago duration_hours).length = 16
      ∧ (∀ c ∈ (generate_cache_key volcano hours_ago duration_hours).toList, c ∈ hexChars)
      ∧ (∀ (v2 : String) (h2 d2 : Int), volcano = v2 → hours_ago = h2 → duration_hours = d2 →
          generate_cache_key volcano hours_ago duration_hours = generate_cache_key v2 h2 d2) := by
  intro volcano hours_ago duration_hours
  refine ⟨?_, ?_, ?_⟩
  · show (String.mk _).length = 16
    simp only [String.length]
    rw [List.length_take, sha256HexChars_length]
    decide
  · intro c hc
    have : c ∈ sha256HexChars (strBytes
        s!"{volcano}_{hours_ago}h_ago_{duration_hours}h_duration") := by
      apply List.mem_of_mem_take
      simpa [generate_cache_key, String.toList] using hc
    exact sha256HexChars_mem _ _ this
  · intro v2 h2 d2 hv hh hd
    rw [hv, hh, hd]

/-- Witness for `cache_key_deriver_correct` at a concrete request. -/
theorem cache_key_deriver_correct_witness :
    (generate_cache_key "kilauea" 12 24).length = 16
    ∧ generate_cache_key "kilauea" 12 24 = generate_cache_key "kilauea" 12 24 := by
  refine ⟨(cache_key_deriver_correct "kilauea" 12 24).1, ?_⟩
  exact (cache_key_deriver_correct "kilauea" 12 24).2.2 "kilauea" 12 24 rfl rfl rfl

/-- Claim C1: for every single blob of `N` bytes, the progressive streamer
emits ranges whose sizes follow the staircase schedule
`8192, 16384, 32768, 65536, 131072, 262144` then repeated `524288`-byte
ranges (any step truncated or skipped once the blob runs out); the
schedule restarts at the start of every underlying blob of a chunked
sequence; the emitted sizes sum to `N`; and for `N = 1000000` the sizes
are exactly the six staircase steps followed by the `483904`-byte
remainder of the first (truncated) `524288`-byte range. -/
theorem progressive_schedule_correct :
    (∀ data : List Nat, (streamSingleBlob data).map List.length = specSchedule data.length)
    ∧ (∀ data : List Nat, ((streamSingleBlob data).map List.length).sum = data.length)
    ∧ (∀ blobs : List (List Nat), streamBlobSeq blobs = (blobs.map streamSingleBlob).flatten)
    ∧ specSchedule 1000000 = [8192, 16384, 32768, 65536, 131072, 262144, 483904] := by
  refine ⟨streamSingleBlob_sizes, ?_, ?_, by decide⟩
  · intro data
    rw [← List.length_flatten, streamSingleBlob_flatten]
  · intro blobs
    induction blobs with
    | nil => simp [streamBlobSeq]
    | cons b bs ih => simp [streamBlobSeq, ih]

theorem fetchWithFallback_store (w : World) (cfg : VolcanoConfig)
    (net sta loc cha : String) (ha dh : Int) :
    (fetchWithFallback w cfg net sta loc cha ha dh).2.store = w.store := by
  simp only [fetchWithFallback]
  split
  · rfl
  · split
    · rfl
    · rfl

theorem fetchWithFallback_first_success (w : World) (cfg : VolcanoConfig)
    (net sta loc cha : String) (ha dh : Int) (wave : Waveform)
    (h : w.upstream net sta loc cha (w.now - ha * 3600 - dh * 3600) (w.now - ha * 3600) =
      some wave) :
    fetchWithFallback w cfg net sta loc cha ha dh =
      (some wave,
       { w with log := w.log ++ [Effect.fetchWaveform net sta loc cha
          (w.now - ha * 3600 - dh * 3600) (w.now - ha * 3600)] }) := by
  simp only [fetchWithFallback]
  rw [h]

theorem fetchWithFallback_first_fail (w : World) (cfg : VolcanoConfig)
    (net sta loc cha : String) (ha dh : Int)
    (h : w.upstream net sta loc cha (w.now - ha * 3600 - dh * 3600) (w.now - ha * 3600) =
      none) :
    fetchWithFallback w cfg net sta loc cha ha dh =
      (w.upstream cfg.network cfg.station (cfg.location.getD "*") cfg.channel
        (w.now - 24 * 3600 - dh * 3600) (w.now - 24 * 3600),
       { w with log := w.log ++
          [Effect.fetchWaveform net sta loc cha
            (w.now - ha * 3600 - dh * 3600) (w.now - ha * 3600),
           Effect.fetchWaveform cfg.network cfg.station (cfg.location.getD "*") cfg.channel
            (w.now - 24 * 3600 - dh * 3600) (w.now - 24 * 3600)] }) := by
  simp only [fetchWithFallback]
  rw [h]
  cases h2 : w.upstream cfg.network cfg.station (cfg.location.getD "*") cfg.channel
      (w.now - 24 * 3600 - dh * 3600) (w.now - 24 * 3600) <;>
    simp [h2, List.append_assoc]

theorem putZarrFilesGo_eq (ck label : String) :
    ∀ (files : List (String × List Nat)) (w : World),
      putZarrFilesGo ck label files w =
        ((files.map (fun f => f.2.length)).sum,
         { w with store := storePutList w.store (zarrPuts ck label files),
                  log := w.log ++ (zarrPuts ck label files).map mkPutE }) := by
  intro files
  induction files with
  | nil =>
    intro w
    simp [putZarrFilesGo, zarrPuts, storePutList]
  | cons f rest ih =>
    intro w
    obtain ⟨rel, b⟩ := f
    simp only [putZarrFilesGo, ih, zarrPuts, List.map_cons, List.sum_cons, storePutList, mkPutE]
    refine Prod.ext rfl ?_
    simp [List.append_assoc, zarrPuts, mkPutE]

/-- The hit fast path of `ensure_cached_in_r2` (main.py lines 87-102):
when the sentinel is present the call returns
`(cache_key, profiles-or-empty, metadata-or-empty)` and the only effects
are the head probe and the two best-effort JSON reads — no upstream
fetch, no encoding, no write, store unchanged. -/
theorem ensure_hit (w : World) (v : String) (ha dh : Int) (n s l c : Option String)
    (obj : StoredObj)
    (hs : alookup w.store (sentinelKey (generate_cache_key v ha dh)) = some obj) :
    ensure_cached_in_r2 w v ha dh n s l c =
      (.ok (generate_cache_key v ha dh,
            loadedProfiles w.store (generate_cache_key v ha dh),
            loadedMetadata w.store (generate_cache_key v ha dh)),
       { w with log := w.log ++
          [Effect.headObj (sentinelKey (generate_cache_key v ha dh)),
           Effect.getObj (profilesKey (generate_cache_key v ha dh)),
           Effect.getObj (metadataKey (generate_cache_key v ha dh))] }) := by
  simp only [ensure_cached_in_r2]
  rw [hs]
  simp [loadedProfiles, loadedMetadata, List.append_assoc]

/-- The miss path of `ensure_cached_in_r2` under a successful fetch:
the call returns `(cache_key, profiles, metadata)` and its effects are
the head probe, the fetch effects, and exactly the `missPuts` writes. -/
theorem ensure_miss_eq (w : World) (v : String) (ha dh : Int) (n s l c : Option String)
    (cfg : VolcanoConfig) (wave : Waveform) (w1 : World)
    (hmiss : alookup w.store (sentinelKey (generate_cache_key v ha dh)) = none)
    (hcfg : alookup w.volcanoes (pyLower v) = some cfg)
    (hfetch : fetchWithFallback
        { w with log := w.log ++ [Effect.headObj (sentinelKey (generate_cache_key v ha dh))] }
        cfg (pyOr n cfg.network) (pyOr s cfg.station)
        (pyOr l (cfg.location.getD "*")) (pyOr c cfg.channel) ha dh = (some wave, w1))
    (hnon : wave.samples ≠ []) :
    ensure_cached_in_r2 w v ha dh n s l c =
      (.ok (generate_cache_key v ha dh,
            some (missProfiles w wave),
            some (missMetadata v ha dh wave)),
       { w1 with
          store := storePutList w.store
            (missPuts w (generate_cache_key v ha dh) v ha dh wave),
          log := w1.log ++
            (missPuts w (generate_cache_key v ha dh) v ha dh wave).map mkPutE }) := by
  have hempty : wave.samples.isEmpty = false := by
    cases hw : wave.samples with
    | nil => exact absurd hw hnon
    | cons a t => rfl
  have hw1store : w1.store = w.store := by
    have := fetchWithFallback_store
      { w with log := w.log ++ [Effect.headObj (sentinelKey (generate_cache_key v ha dh))] }
      cfg (pyOr n cfg.network) (pyOr s cfg.station)
      (pyOr l (cfg.location.getD "*")) (pyOr c cfg.channel) ha dh
    rw [hfetch] at this
    exact this
  simp only [ensure_cached_in_r2]
  rw [hmiss]
  dsimp only
  rw [hcfg]
  dsimp only
  rw [hfetch]
  dsimp only
  rw [hempty]
  simp only [Bool.false_eq_true, if_false, putZarrFilesGo_eq, hw1store]
  simp only [missPuts, missProfiles, missMetadata, storePutList_append, storePutList_cons,
    storePutList_nil, List.map_append, List.map_cons, List.map_nil, mkPutE,
    List.append_assoc, List.cons_append, List.nil_append, List.singleton_append]

theorem missPuts_sentinel_lookup (w : World) (ck volcano : String) (ha dh : Int)
    (wave : Waveform) (s0 : List (String × StoredObj)) :
    alookup (storePutList s0 (missPuts w ck volcano ha dh wave)) (sentinelKey ck) =
      some (StoredObj.bytes (int16LE (normalizeInt16 wave.samples))) := by
  simp only [missPuts, storePutList_append]
  rw [storePutList_lookup_ne, storePutList_lookup_ne, storePutList_lookup_ne,
    storePutList_lookup_ne, storePutList_lookup_ne, storePutList_lookup_ne]
  · rw [storePutList_cons, storePutList_cons, storePutList_nil, storePut_lookup_self]
  · intro kv hkv
    simp only [zarrPuts, List.mem_map] at hkv
    obtain ⟨f, _, hf⟩ := hkv
    rw [← hf]
    exact zarrKey_int16_ne_sentinel _ _ _
  · intro kv hkv
    simp only [List.mem_singleton] at hkv
    rw [hkv]
    exact gzipRawKey_ne_sentinel _ _
  · intro kv hkv
    simp only [zarrPuts, List.mem_map] at hkv
    obtain ⟨f, _, hf⟩ := hkv
    rw [← hf]
    exact zarrKey_gzip_ne_sentinel _ _ _
  · intro kv hkv
    simp only [List.mem_singleton] at hkv
    rw [hkv]
    exact bloscRawKey_ne_sentinel _ _
  · intro kv hkv
    simp only [zarrPuts, List.mem_map] at hkv
    obtain ⟨f, _, hf⟩ := hkv
    rw [← hf]
    exact zarrKey_blosc_ne_sentinel _ _ _
  · intro kv hkv
    simp only [List.mem_cons, List.not_mem_nil, or_false] at hkv
    rcases hkv with h | h <;> rw [h]
    · exact metadataKey_ne_sentinel _ _
    · exact profilesKey_ne_sentinel _ _

theorem ensure_unknown_volcano (w : World) (v : String) (ha dh : Int) (n s l c : Option String)
    (hmiss : alookup w.store (sentinelKey (generate_cache_key v ha dh)) = none)
    (hcfg : alookup w.volcanoes (pyLower v) = none) :
    ensure_cached_in_r2 w v ha dh n s l c =
      (.error (.keyError v),
       { w with log := w.log ++ [Effect.headObj (sentinelKey (generate_cache_key v ha dh))] }) := by
  simp only [ensure_cached_in_r2]
  rw [hmiss]
  dsimp only
  rw [hcfg]

theorem ensure_fetch_failed (w : World) (v : String) (ha dh : Int) (n s l c : Option String)
    (cfg : VolcanoConfig) (w1 : World)
    (hmiss : alookup w.store (sentinelKey (generate_cache_key v ha dh)) = none)
    (hcfg : alookup w.volcanoes (pyLower v) = some cfg)
    (hfetch : fetchWithFallback
        { w with log := w.log ++ [Effect.headObj (sentinelKey (generate_cache_key v ha dh))] }
        cfg (pyOr n cfg.network) (pyOr s cfg.station)
        (pyOr l (cfg.location.getD "*")) (pyOr c cfg.channel) ha dh = (none, w1)) :
    ensure_cached_in_r2 w v ha dh n s l c = (.error .noData, w1) := by
  simp only [ensure_cached_in_r2]
  rw [hmiss]
  dsimp only
  rw [hcfg]
  dsimp only
  rw [hfetch]

theorem ensure_empty_samples (w : World) (v : String) (ha dh : Int) (n s l c : Option String)
    (cfg : VolcanoConfig) (wave : Waveform) (w1 : World)
    (hmiss : alookup w.store (sentinelKey (generate_cache_key v ha dh)) = none)
    (hcfg : alookup w.volcanoes (pyLower v) = some cfg)
    (hfetch : fetchWithFallback
        { w with log := w.log ++ [Effect.headObj (sentinelKey (generate_cache_key v ha dh))] }
        cfg (pyOr n cfg.network) (pyOr s cfg.station)
        (pyOr l (cfg.location.getD "*")) (pyOr c cfg.channel) ha dh = (some wave, w1))
    (hsam : wave.samples = []) :
    ensure_cached_in_r2 w v ha dh n s l c =
      (.error (.valueError "zero-size array to reduction operation"),
       { w1 with
          store := storePut w1.store (mseedKey (generate_cache_key v ha dh))
            (.mseedObj wave.samples),
          log := w1.log ++ [Effect.putObj (mseedKey (generate_cache_key v ha dh))
            (.mseedObj wave.samples)] }) := by
  have hempty : wave.samples.isEmpty = true := by rw [hsam]; rfl
  simp only [ensure_cached_in_r2]
  rw [hmiss]
  dsimp only
  rw [hcfg]
  dsimp only
  rw [hfetch]
  dsimp only
  rw [hempty]
  simp only [if_true]

theorem filter_isFetch_map_mkPutE (l : List (String × StoredObj)) :
    (l.map mkPutE).filter isFetchEffect = [] := by
  induction l with
  | nil => rfl
  | cons kv rest ih => simp [mkPutE, isFetchEffect, ih]

/-- Every successful `ensure_cached_in_r2` call returns the derived cache
key as its first component and leaves the sentinel object present. -/
theorem ensure_ok_cases (w : World) (v : String) (ha dh : Int) (n s l c : Option String)
    (r : String × Option Profiles × Option Metadata)
    (h : (ensure_cached_in_r2 w v ha dh n s l c).1 = .ok r) :
    r.1 = generate_cache_key v ha dh ∧
    ∃ obj, alookup (ensure_cached_in_r2 w v ha dh n s l c).2.store
      (sentinelKey (generate_cache_key v ha dh)) = some obj := by
  cases hs : alookup w.store (sentinelKey (generate_cache_key v ha dh)) with
  | some obj =>
    rw [ensure_hit w v ha dh n s l c obj hs] at h ⊢
    refine ⟨?_, obj, hs⟩
    have := (Except.ok.injEq _ _).mp h.symm
    rw [this]
  | none =>
    cases hc : alookup w.volcanoes (pyLower v) with
    | none =>
      rw [ensure_unknown_volcano w v ha dh n s l c hs hc] at h
      exact absurd h (by simp)
    | some cfg =>
      rcases hfw : fetchWithFallback
          { w with log := w.log ++ [Effect.headObj (sentinelKey (generate_cache_key v ha dh))] }
          cfg (pyOr n cfg.network) (pyOr s cfg.station)
          (pyOr l (cfg.location.getD "*")) (pyOr c cfg.channel) ha dh with ⟨o, w1⟩
      cases o with
      | none =>
        rw [ensure_fetch_failed w v ha dh n s l c cfg w1 hs hc hfw] at h
        exact absurd h (by simp)
      | some wave =>
        cases hsam : wave.samples with
        | nil =>
          rw [ensure_empty_samples w v ha dh n s l c cfg wave w1 hs hc hfw hsam] at h
          exact absurd h (by simp)
        | cons a t =>
          have hnon : wave.samples ≠ [] := by rw [hsam]; simp
          rw [ensure_miss_eq w v ha dh n s l c cfg wave w1 hs hc hfw hnon] at h ⊢
          refine ⟨?_, _, missPuts_sentinel_lookup w (generate_cache_key v ha dh) v ha dh wave w.store⟩
          have := (Except.ok.injEq _ _).mp h.symm
          rw [this]

/-- Claim C3: when the cache key's canonical single-object int16 sentinel
already exists in the store, `ensure_cached_in_r2` returns
`(cacheKey, profiles, metadata)` immediately — its only effects are the
head probe and the two best-effort JSON reads, so zero upstream fetches,
zero re-encodings, zero writes; an absent or unreadable JSON side-object
is replaced by the empty dict (modelled `none`).  Consequently a second
populate call for an already-populated key performs zero further upstream
fetches (the counter stays at the first call's value, which is exactly
`fetchCount w + 1` when the first call populated the entry with a single
successful fetch). -/
theorem populate_hit_fast_path_and_idempotence :
    (∀ (w : World) (v : String) (ha dh : Int) (n s l c : Option String) (obj : StoredObj),
      alookup w.store (sentinelKey (generate_cache_key v ha dh)) = some obj →
      ensure_cached_in_r2 w v ha dh n s l c =
        (.ok (generate_cache_key v ha dh,
              loadedProfiles w.store (generate_cache_key v ha dh),
              loadedMetadata w.store (generate_cache_key v ha dh)),
         { w with log := w.log ++
            [Effect.headObj (sentinelKey (generate_cache_key v ha dh)),
             Effect.getObj (profilesKey (generate_cache_key v ha dh)),
             Effect.getObj (metadataKey (generate_cache_key v ha dh))] }))
    ∧ (∀ (w : World) (v : String) (ha dh : Int) (n s l c n2 s2 l2 c2 : Option String)
        (r : String × Option Profiles × Option Metadata),
        (ensure_cached_in_r2 w v ha dh n s l c).1 = .ok r →
        fetchCount (ensure_cached_in_r2 (ensure_cached_in_r2 w v ha dh n s l c).2
            v ha dh n2 s2 l2 c2).2 =
          fetchCount (ensure_cached_in_r2 w v ha dh n s l c).2
        ∧ ∃ r2, (ensure_cached_in_r2 (ensure_cached_in_r2 w v ha dh n s l c).2
            v ha dh n2 s2 l2 c2).1 = .ok r2)
    ∧ (∀ (w : World) (v : String) (ha dh : Int) (n s l c : Option String)
        (cfg : VolcanoConfig) (wave : Waveform),
        alookup w.store (sentinelKey (generate_cache_key v ha dh)) = none →
        alookup w.volcanoes (pyLower v) = some cfg →
        w.upstream (pyOr n cfg.network) (pyOr s cfg.station)
          (pyOr l (cfg.location.getD "*")) (pyOr c cfg.channel)
          (w.now - ha * 3600 - dh * 3600) (w.now - ha * 3600) = some wave →
        wave.samples ≠ [] →
        fetchCount (ensure_cached_in_r2 w v ha dh n s l c).2 = fetchCount w + 1) := by
  refine ⟨fun w v ha dh n s l c obj hs => ensure_hit w v ha dh n s l c obj hs, ?_, ?_⟩
  · intro w v ha dh n s l c n2 s2 l2 c2 r h
    obtain ⟨-, obj, hobj⟩ := ensure_ok_cases w v ha dh n s l c r h
    rw [ensure_hit _ v ha dh n2 s2 l2 c2 obj hobj]
    refine ⟨?_, _, rfl⟩
    simp [fetchCount, List.filter_append, isFetchEffect]
  · intro w v ha dh n s l c cfg wave hmiss hcfg hup hnon
    have hfetch := fetchWithFallback_first_success
      { w with log := w.log ++ [Effect.headObj (sentinelKey (generate_cache_key v ha dh))] }
      cfg (pyOr n cfg.network) (pyOr s cfg.station)
      (pyOr l (cfg.location.getD "*")) (pyOr c cfg.channel) ha dh wave hup
    rw [ensure_miss_eq w v ha dh n s l c cfg wave _ hmiss hcfg hfetch hnon]
    simp [fetchCount, List.filter_append, isFetchEffect, filter_isFetch_map_mkPutE]

theorem hitWorld_sentinel :
    alookup hitWorld.store (sentinelKey (generate_cache_key "kilauea" 12 24)) =
      some (StoredObj.bytes [1, 2, 3]) := by
  simp [hitWorld, alookup]

/-- Witness for `populate_hit_fast_path_and_idempotence` at a concrete
populated world. -/
theorem populate_hit_fast_path_and_idempotence_witness :
    ensure_cached_in_r2 hitWorld "kilauea" 12 24 none none none none =
      (.ok (generate_cache_key "kilauea" 12 24,
            loadedProfiles hitWorld.store (generate_cache_key "kilauea" 12 24),
            loadedMetadata hitWorld.store (generate_cache_key "kilauea" 12 24)),
       { hitWorld with log :=
          [Effect.headObj (sentinelKey (generate_cache_key "kilauea" 12 24)),
           Effect.getObj (profilesKey (generate_cache_key "kilauea" 12 24)),
           Effect.getObj (metadataKey (generate_cache_key "kilauea" 12 24))] }) := by
  have h := populate_hit_fast_path_and_idempotence.1 hitWorld "kilauea" 12 24
    none none none none (StoredObj.bytes [1, 2, 3]) hitWorld_sentinel
  simpa using h

/-- Claim C9: the station-override fields have no influence on the cache
key: any two successful populate calls agreeing on
`(sourceId, hoursAgo, durationHours)` — with arbitrary, possibly
different, `network`/`station`/`location`/`channel` overrides — return
the same cache key, namely `generate_cache_key sourceId hoursAgo
durationHours`, so two different physical stations collide onto one
cache entry. -/
theorem station_overrides_bypass_cache_key :
    ∀ (w : World) (v : String) (ha dh : Int)
      (n1 s1 l1 c1 n2 s2 l2 c2 : Option String)
      (r1 r2 : String × Option Profiles × Option Metadata),
      (ensure_cached_in_r2 w v ha dh n1 s1 l1 c1).1 = .ok r1 →
      (ensure_cached_in_r2 w v ha dh n2 s2 l2 c2).1 = .ok r2 →
      r1.1 = r2.1 ∧ r1.1 = generate_cache_key v ha dh := by
  intro w v ha dh n1 s1 l1 c1 n2 s2 l2 c2 r1 r2 h1 h2
  have k1 := (ensure_ok_cases w v ha dh n1 s1 l1 c1 r1 h1).1
  have k2 := (ensure_ok_cases w v ha dh n2 s2 l2 c2 r2 h2).1
  exact ⟨k1.trans k2.symm, k1⟩

/-- Witness for `station_overrides_bypass_cache_key`: two requests naming
two different physical stations (`AV.SPCN` override vs the configured
default) hit the same cache entry and key. -/
theorem station_overrides_bypass_cache_key_witness :
    (ensure_cached_in_r2 hitWorld "kilauea" 12 24
        (some "AV") (some "SPCN") (some "01") (some "BHZ")).1 =
      .ok (generate_cache_key "kilauea" 12 24,
           loadedProfiles hitWorld.store (generate_cache_key "kilauea" 12 24),
           loadedMetadata hitWorld.store (generate_cache_key "kilauea" 12 24))
    ∧ (ensure_cached_in_r2 hitWorld "kilauea" 12 24 none none none none).1 =
      .ok (generate_cache_key "kilauea" 12 24,
           loadedProfiles hitWorld.store (generate_cache_key "kilauea" 12 24),
           loadedMetadata hitWorld.store (generate_cache_key "kilauea" 12 24))
    ∧ (generate_cache_key "kilauea" 12 24,
        loadedProfiles hitWorld.store (generate_cache_key "kilauea" 12 24),
        loadedMetadata hitWorld.store (generate_cache_key "kilauea" 12 24)).1 =
      generate_cache_key "kilauea" 12 24 := by
  have h1 : (ensure_cached_in_r2 hitWorld "kilauea" 12 24
      (some "AV") (some "SPCN") (some "01") (some "BHZ")).1 =
      .ok (generate_cache_key "kilauea" 12 24,
           loadedProfiles hitWorld.store (generate_cache_key "kilauea" 12 24),
           loadedMetadata hitWorld.store (generate_cache_key "kilauea" 12 24)) := by
    rw [ensure_hit hitWorld "kilauea" 12 24 (some "AV") (some "SPCN") (some "01") (some "BHZ")
      (StoredObj.bytes [1, 2, 3]) hitWorld_sentinel]
  have h2 : (ensure_cached_in_r2 hitWorld "kilauea" 12 24 none none none none).1 =
      .ok (generate_cache_key "kilauea" 12 24,
           loadedProfiles hitWorld.store (generate_cache_key "kilauea" 12 24),
           loadedMetadata hitWorld.store (generate_cache_key "kilauea" 12 24)) := by
    rw [ensure_hit hitWorld "kilauea" 12 24 none none none none
      (StoredObj.bytes [1, 2, 3]) hitWorld_sentinel]
  exact ⟨h1, h2, (station_overrides_bypass_cache_key hitWorld "kilauea" 12 24
    (some "AV") (some "SPCN") (some "01") (some "BHZ") none none none none _ _ h1 h2).2⟩

/-- Counterexample to claim C7: for the request
`("kilauea", hoursAgo = 12, durationHours = 24)` on `retryWorld`, the
first upstream fetch (window `[-129600, -43200]`) fails, and
`ensure_cached_in_r2` then performs a second in-core fetch with an
altered time window (ending 24 hours ago: `[-172800, -86400]`) and the
configured default station parameters — and succeeds, so the failure was
not terminal: the fetch log shows two calls with different windows. -/
theorem no_in_core_retry_counterexample :
    retryWorld.upstream "HV" "HLPD" "" "HHZ" (-129600) (-43200) = none
    ∧ (ensure_cached_in_r2 retryWorld "kilauea" 12 24 none none none none).2.log.filter
        isFetchEffect =
      [Effect.fetchWaveform "HV" "HLPD" "" "HHZ" (-129600) (-43200),
       Effect.fetchWaveform "HV" "HLPD" "" "HHZ" (-172800) (-86400)]
    ∧ (ensure_cached_in_r2 retryWorld "kilauea" 12 24 none none none none).1 =
      .ok (generate_cache_key "kilauea" 12 24,
           some (missProfiles retryWorld retryWave),
           some (missMetadata "kilauea" 12 24 retryWave)) := by
  have hmiss : alookup retryWorld.store
      (sentinelKey (generate_cache_key "kilauea" 12 24)) = none := rfl
  have hcfg : alookup retryWorld.volcanoes (pyLower "kilauea") =
      some ⟨"HV", "HLPD", some "", "HHZ"⟩ := by decide
  have hfirst :
      ({ retryWorld with log := retryWorld.log ++
          [Effect.headObj (sentinelKey (generate_cache_key "kilauea" 12 24))] } : World).upstream
        (pyOr none (VolcanoConfig.mk "HV" "HLPD" (some "") "HHZ").network)
        (pyOr none (VolcanoConfig.mk "HV" "HLPD" (some "") "HHZ").station)
        (pyOr none ((VolcanoConfig.mk "HV" "HLPD" (some "") "HHZ").location.getD "*"))
        (pyOr none (VolcanoConfig.mk "HV" "HLPD" (some "") "HHZ").channel)
        (({ retryWorld with log := retryWorld.log ++
          [Effect.headObj (sentinelKey (generate_cache_key "kilauea" 12 24))] } : World).now
            - 12 * 3600 - 24 * 3600)
        (({ retryWorld with log := retryWorld.log ++
          [Effect.headObj (sentinelKey (generate_cache_key "kilauea" 12 24))] } : World).now
            - 12 * 3600) = none := by
    simp [retryWorld, pyOr]
  have hfw := fetchWithFallback_first_fail
    { retryWorld with log := retryWorld.log ++
        [Effect.headObj (sentinelKey (generate_cache_key "kilauea" 12 24))] }
    ⟨"HV", "HLPD", some "", "HHZ"⟩
    (pyOr none (VolcanoConfig.mk "HV" "HLPD" (some "") "HHZ").network)
    (pyOr none (VolcanoConfig.mk "HV" "HLPD" (some "") "HHZ").station)
    (pyOr none ((VolcanoConfig.mk "HV" "HLPD" (some "") "HHZ").location.getD "*"))
    (pyOr none (VolcanoConfig.mk "HV" "HLPD" (some "") "HHZ").channel)
    12 24 hfirst
  have hfallback :
      ({ retryWorld with log := retryWorld.log ++
          [Effect.headObj (sentinelKey (generate_cache_key "kilauea" 12 24))] } : World).upstream
        "HV" "HLPD" (((some "" : Option String)).getD "*") "HHZ"
        (({ retryWorld with log := retryWorld.log ++
          [Effect.headObj (sentinelKey (generate_cache_key "kilauea" 12 24))] } : World).now
            - 24 * 3600 - 24 * 3600)
        (({ retryWorld with log := retryWorld.log ++
          [Effect.headObj (sentinelKey (generate_cache_key "kilauea" 12 24))] } : World).now
            - 24 * 3600) = some retryWave := by
    simp [retryWorld]
  rw [hfallback] at hfw
  have hrun := ensure_miss_eq retryWorld "kilauea" 12 24 none none none none
    ⟨"HV", "HLPD", some "", "HHZ"⟩ retryWave _ hmiss hcfg hfw (by decide)
  refine ⟨by simp [retryWorld], ?_, ?_⟩
  · rw [hrun]
    simp [List.filter_append, filter_isFetch_map_mkPutE, isFetchEffect, retryWorld, pyOr]
  · rw [hrun]

/-- Claim C7 as amended: when the first upstream fetch fails,
`ensure_cached_in_r2` performs exactly one in-core retry — with the
window ending 24 hours before now and the configured default station
parameters — and only if that retry also fails is the failure terminal
(`NoUpstreamData` reported to the caller with no further fetch). -/
theorem upstream_fallback_retry :
    ∀ (w : World) (v : String) (ha dh : Int) (n s l c : Option String) (cfg : VolcanoConfig),
      alookup w.store (sentinelKey (generate_cache_key v ha dh)) = none →
      alookup w.volcanoes (pyLower v) = some cfg →
      w.upstream (pyOr n cfg.network) (pyOr s cfg.station)
        (pyOr l (cfg.location.getD "*")) (pyOr c cfg.channel)
        (w.now - ha * 3600 - dh * 3600) (w.now - ha * 3600) = none →
      ((ensure_cached_in_r2 w v ha dh n s l c).2.log.filter isFetchEffect =
        w.log.filter isFetchEffect ++
        [Effect.fetchWaveform (pyOr n cfg.network) (pyOr s cfg.station)
            (pyOr l (cfg.location.getD "*")) (pyOr c cfg.channel)
            (w.now - ha * 3600 - dh * 3600) (w.now - ha * 3600),
         Effect.fetchWaveform cfg.network cfg.station (cfg.location.getD "*") cfg.channel
            (w.now - 24 * 3600 - dh * 3600) (w.now - 24 * 3600)])
      ∧ (w.upstream cfg.network cfg.station (cfg.location.getD "*") cfg.channel
          (w.now - 24 * 3600 - dh * 3600) (w.now - 24 * 3600) = none →
        (ensure_cached_in_r2 w v ha dh n s l c).1 = .error .noData) := by
  intro w v ha dh n s l c cfg hmiss hcfg hup
  have hfw := fetchWithFallback_first_fail
    { w with log := w.log ++ [Effect.headObj (sentinelKey (generate_cache_key v ha dh))] }
    cfg (pyOr n cfg.network) (pyOr s cfg.station)
    (pyOr l (cfg.location.getD "*")) (pyOr c cfg.channel) ha dh hup
  cases hfb : w.upstream cfg.network cfg.station (cfg.location.getD "*") cfg.channel
      (w.now - 24 * 3600 - dh * 3600) (w.now - 24 * 3600) with
  | none =>
    rw [hfb] at hfw
    rw [ensure_fetch_failed w v ha dh n s l c cfg _ hmiss hcfg hfw]
    constructor
    · simp [List.filter_append, isFetchEffect]
    · intro _
      rfl
  | some wave =>
    rw [hfb] at hfw
    refine ⟨?_, fun hcontra => absurd hcontra (by simp)⟩
    cases hsam : wave.samples with
    | nil =>
      rw [ensure_empty_samples w v ha dh n s l c cfg wave _ hmiss hcfg hfw hsam]
      simp [List.filter_append, isFetchEffect]
    | cons a t =>
      have hnon : wave.samples ≠ [] := by rw [hsam]; simp
      rw [ensure_miss_eq w v ha dh n s l c cfg wave _ hmiss hcfg hfw hnon]
      simp [List.filter_append, isFetchEffect, filter_isFetch_map_mkPutE]

/-- Witness for `upstream_fallback_retry` on a world whose upstream has
no data at all: two fetch calls, then a terminal `NoUpstreamData`. -/
theorem upstream_fallback_retry_witness :
    (ensure_cached_in_r2 failWorld "kilauea" 12 24 none none none none).2.log.filter
        isFetchEffect =
      [Effect.fetchWaveform "HV" "HLPD" "" "HHZ" (-129600) (-43200),
       Effect.fetchWaveform "HV" "HLPD" "" "HHZ" (-172800) (-86400)]
    ∧ (ensure_cached_in_r2 failWorld "kilauea" 12 24 none none none none).1 =
      .error .noData := by
  have h := upstream_fallback_retry failWorld "kilauea" 12 24 none none none none
    ⟨"HV", "HLPD", some "", "HHZ"⟩ rfl (by decide) rfl
  refine ⟨?_, h.2 rfl⟩
  have h1 := h.1
  simp only [failWorld, pyOr, Option.getD] at h1
  norm_num at h1
  simpa [failWorld] using h1

theorem maxAbsQ_nil : maxAbsQ [] = 0 := rfl

theorem maxAbsQ_cons (q : ℚ) (l : List ℚ) : maxAbsQ (q :: l) = max |q| (maxAbsQ l) := rfl

theorem le_maxAbsQ (l : List ℚ) : ∀ q ∈ l, |q| ≤ maxAbsQ l := by
  induction l with
  | nil => simp
  | cons x rest ih =>
    intro q hq
    rw [maxAbsQ_cons]
    rcases List.mem_cons.mp hq with h | h
    · rw [h]
      exact le_max_left _ _
    · exact le_trans (ih q h) (le_max_right _ _)

theorem maxAbsQ_attained (l : List ℚ) : maxAbsQ l = 0 ∨ ∃ q ∈ l, |q| = maxAbsQ l := by
  induction l with
  | nil => exact Or.inl rfl
  | cons x rest ih =>
    rw [maxAbsQ_cons]
    rcases le_total |x| (maxAbsQ rest) with h | h
    · rw [max_eq_right h]
      rcases ih with h0 | ⟨q, hq, he⟩
      · rw [h0] at h ⊢
        have hx : |x| = 0 := le_antisymm h (abs_nonneg x)
        exact Or.inr ⟨x, List.mem_cons_self _ _, hx⟩
      · exact Or.inr ⟨q, List.mem_cons_of_mem _ hq, he⟩
    · rw [max_eq_left h]
      exact Or.inr ⟨x, List.mem_cons_self _ _, rfl⟩

theorem truncToZero_bounds {q : ℚ} (h : |q| ≤ 32767) :
    -32767 ≤ truncToZero q ∧ truncToZero q ≤ 32767 := by
  rcases abs_le.mp h with ⟨hlo, hhi⟩
  unfold truncToZero
  by_cases h0 : 0 ≤ q
  · rw [if_pos h0]
    constructor
    · have : (0 : Int) ≤ ⌊q⌋ := Int.floor_nonneg.mpr h0
      omega
    · rw [Int.floor_le_iff]
      push_cast
      linarith
  · rw [if_neg h0]
    constructor
    · rw [Int.le_ceil_iff]
      push_cast
      linarith
    · have : ⌈q⌉ ≤ 0 :=
        Int.ceil_le.mpr (by exact_mod_cast le_of_lt (lt_of_not_le h0))
      omega

theorem int16wrap_eq_self {z : Int} (hlo : -32768 ≤ z) (hhi : z ≤ 32767) :
    int16wrap z = z := by
  unfold int16wrap
  rw [Int.emod_eq_of_lt (by omega) (by omega)]
  omega

theorem normalizeInt16_pos (samples : List Int)
    (hm : 0 < maxAbsQ (samples.map (fun x : Int => (x : ℚ) - listMeanQ samples))) :
    normalizeInt16 samples = samples.map (fun x : Int =>
      int16wrap (truncToZero (((x : ℚ) - listMeanQ samples) /
        maxAbsQ (samples.map (fun y : Int => (y : ℚ) - listMeanQ samples)) * 32767))) := by
  show (if 0 < maxAbsQ (samples.map (fun x : Int => (x : ℚ) - listMeanQ samples)) then
      (samples.map (fun x : Int => (x : ℚ) - listMeanQ samples)).map
        (fun q => q / maxAbsQ (samples.map (fun x : Int => (x : ℚ) - listMeanQ samples)) * 32767)
    else (samples.map (fun x : Int => (x : ℚ) - listMeanQ samples)).map
        (fun q => q * 32767)).map (fun q => int16wrap (truncToZero q)) = _
  rw [if_pos hm, List.map_map, List.map_map]
  rfl

/-- Pointwise value of the normalized array when the centered value is
zero. -/
theorem normalize_zero_entry : int16wrap (truncToZero ((0 : ℚ) * 32767)) = 0 := by
  norm_num [truncToZero, int16wrap]

theorem normalizeInt16_zero_peak (samples : List Int)
    (hm : maxAbsQ (samples.map (fun x : Int => (x : ℚ) - listMeanQ samples)) = 0) :
    normalizeInt16 samples = List.replicate samples.length 0 := by
  show (if 0 < maxAbsQ (samples.map (fun x : Int => (x : ℚ) - listMeanQ samples)) then
      (samples.map (fun x : Int => (x : ℚ) - listMeanQ samples)).map
        (fun q => q / maxAbsQ (samples.map (fun x : Int => (x : ℚ) - listMeanQ samples)) * 32767)
    else (samples.map (fun x : Int => (x : ℚ) - listMeanQ samples)).map
        (fun q => q * 32767)).map (fun q => int16wrap (truncToZero q)) = _
  rw [if_neg (by rw [hm]; exact lt_irrefl 0), List.map_map, List.map_map]
  have hz : ∀ x ∈ samples,
      (((fun q => int16wrap (truncToZero q)) ∘ fun q : ℚ => q * 32767) ∘
        fun x : Int => (x : ℚ) - listMeanQ samples) x = (fun _ : Int => (0 : Int)) x := by
    intro x hx
    have hmem : ((x : ℚ) - listMeanQ samples) ∈
        samples.map (fun y : Int => (y : ℚ) - listMeanQ samples) :=
      List.mem_map_of_mem _ hx
    have habs := le_maxAbsQ _ _ hmem
    rw [hm] at habs
    have h0 : (x : ℚ) - listMeanQ samples = 0 := by
      have hnn := abs_nonneg ((x : ℚ) - listMeanQ samples)
      exact abs_eq_zero.mp (le_antisymm habs hnn)
    simp only [Function.comp]
    rw [h0]
    exact normalize_zero_entry
  rw [List.map_congr_left hz]
  simp

/-- Claim C8: when the mean-centered samples have a nonzero absolute
peak, the preprocessing of `ensure_cached_in_r2` agrees with the
spec-modelled pipeline `specNormalize` (subtract the mean, divide by the
centered peak, multiply by 32767, truncate to int16); the result fills
the int16 range (some entry has magnitude exactly 32767 and every entry
has magnitude at most 32767); and on the miss path the normalization is
computed once, upstream of all six encodings: the populate call's final
store is exactly the `missPuts` write sequence, in which every variant
payload is derived from the single array `normalizeInt16 samples`, and
the stored sentinel is the byte encoding of that one array. -/
theorem normalize_once_fills_int16_range (samples : List Int)
    (hm : 0 < maxAbsQ (samples.map (fun x : Int => (x : ℚ) - listMeanQ samples))) :
    normalizeInt16 samples = specNormalize samples ∧
    (∃ z ∈ normalizeInt16 samples, |z| = 32767) ∧
    (∀ z ∈ normalizeInt16 samples, |z| ≤ 32767) ∧
    (∀ (w : World) (v : String) (ha dh : Int) (n s l c : Option String)
        (cfg : VolcanoConfig) (wave : Waveform) (w1 : World),
      wave.samples = samples → samples ≠ [] →
      alookup w.store (sentinelKey (generate_cache_key v ha dh)) = none →
      alookup w.volcanoes (pyLower v) = some cfg →
      fetchWithFallback
          { w with log := w.log ++
              [Effect.headObj (sentinelKey (generate_cache_key v ha dh))] }
          cfg (pyOr n cfg.network) (pyOr s cfg.station)
          (pyOr l (cfg.location.getD "*")) (pyOr c cfg.channel) ha dh =
        (some wave, w1) →
      (ensure_cached_in_r2 w v ha dh n s l c).2.store =
        storePutList w.store
          (missPuts w (generate_cache_key v ha dh) v ha dh wave) ∧
      alookup (ensure_cached_in_r2 w v ha dh n s l c).2.store
          (sentinelKey (generate_cache_key v ha dh)) =
        some (StoredObj.bytes (int16LE (normalizeInt16 samples)))) := by
  have hpos := normalizeInt16_pos samples hm
  have hb : ∀ x ∈ samples,
      |((x : ℚ) - listMeanQ samples) /
        maxAbsQ (samples.map (fun y : Int => (y : ℚ) - listMeanQ samples)) * 32767| ≤ 32767 := by
    intro x hx
    have habs := le_maxAbsQ _ _
      (List.mem_map_of_mem (fun y : Int => (y : ℚ) - listMeanQ samples) hx)
    rw [abs_mul, abs_div, abs_of_pos hm]
    have h1 : |(x : ℚ) - listMeanQ samples| /
        maxAbsQ (samples.map (fun y : Int => (y : ℚ) - listMeanQ samples)) ≤ 1 :=
      (div_le_one hm).mpr habs
    have h2 : |(32767 : ℚ)| = 32767 := by norm_num
    rw [h2]
    linarith
  have hkey : ∀ x ∈ samples,
      int16wrap (truncToZero (((x : ℚ) - listMeanQ samples) /
        maxAbsQ (samples.map (fun y : Int => (y : ℚ) - listMeanQ samples)) * 32767))
        = truncToZero (((x : ℚ) - listMeanQ samples) /
        maxAbsQ (samples.map (fun y : Int => (y : ℚ) - listMeanQ samples)) * 32767) ∧
      |truncToZero (((x : ℚ) - listMeanQ samples) /
        maxAbsQ (samples.map (fun y : Int => (y : ℚ) - listMeanQ samples)) * 32767)| ≤ 32767 := by
    intro x hx
    have ht := truncToZero_bounds (hb x hx)
    exact ⟨int16wrap_eq_self (by omega) ht.2, abs_le.mpr ⟨by omega, ht.2⟩⟩
  refine ⟨?_, ?_, ?_, ?_⟩
  · rw [hpos, specNormalize]
    exact List.map_congr_left (fun x hx => (hkey x hx).1)
  · rcases maxAbsQ_attained (samples.map (fun x : Int => (x : ℚ) - listMeanQ samples)) with
      h0 | ⟨q, hq, he⟩
    · rw [h0] at hm
      exact absurd hm (lt_irrefl 0)
    · obtain ⟨x, hx, hxq⟩ := List.mem_map.mp hq
      refine ⟨int16wrap (truncToZero (((x : ℚ) - listMeanQ samples) /
        maxAbsQ (samples.map (fun y : Int => (y : ℚ) - listMeanQ samples)) * 32767)),
        by rw [hpos]; exact List.mem_map_of_mem _ hx, ?_⟩
      have hq1 : ((x : ℚ) - listMeanQ samples) /
          maxAbsQ (samples.map (fun y : Int => (y : ℚ) - listMeanQ samples)) = 1 ∨
          ((x : ℚ) - listMeanQ samples) /
          maxAbsQ (samples.map (fun y : Int => (y : ℚ) - listMeanQ samples)) = -1 := by
        have habs1 : |((x : ℚ) - listMeanQ samples) /
            maxAbsQ (samples.map (fun y : Int => (y : ℚ) - listMeanQ samples))| = 1 := by
          rw [abs_div, abs_of_pos hm, hxq, he]
          exact div_self (ne_of_gt hm)
        exact (abs_eq (by norm_num)).mp habs1
      have hc : ⌈(-32767 : ℚ)⌉ = -32767 := by
        rw [show ((-32767 : ℚ)) = ((-32767 : ℤ) : ℚ) by norm_num, Int.ceil_intCast]
      rcases hq1 with h1 | h1
      · rw [h1]
        norm_num [truncToZero, int16wrap]
      · rw [h1]
        norm_num [truncToZero, int16wrap, hc]
  · intro z hz
    rw [hpos] at hz
    obtain ⟨x, hx, hzx⟩ := List.mem_map.mp hz
    rw [← hzx, (hkey x hx).1]
    exact (hkey x hx).2
  · intro w v ha dh n s l c cfg wave w1 hws hne hmiss hcfg hfetch
    have hwne : wave.samples ≠ [] := by
      rw [hws]
      exact hne
    have he := ensure_miss_eq w v ha dh n s l c cfg wave w1 hmiss hcfg hfetch hwne
    constructor
    · rw [he]
    · rw [he]
      dsimp only
      rw [missPuts_sentinel_lookup, hws]

/-- Witness for `normalize_once_fills_int16_range` at the samples
`[2, 0, 4]` (mean 2, centered `[0, -2, 2]`, peak 2) and, for the miss-path
clause, at `normWorld`, whose upstream always returns that trace. -/
theorem normalize_once_fills_int16_range_witness :
    (normalizeInt16 [2, 0, 4] = specNormalize [2, 0, 4] ∧
     (∃ z ∈ normalizeInt16 [2, 0, 4], |z| = 32767) ∧
     (∀ z ∈ normalizeInt16 [2, 0, 4], |z| ≤ 32767) ∧
     (∀ (w : World) (v : String) (ha dh : Int) (n s l c : Option String)
        (cfg : VolcanoConfig) (wave : Waveform) (w1 : World),
      wave.samples = [2, 0, 4] → ([2, 0, 4] : List Int) ≠ [] →
      alookup w.store (sentinelKey (generate_cache_key v ha dh)) = none →
      alookup w.volcanoes (pyLower v) = some cfg →
      fetchWithFallback
          { w with log := w.log ++
              [Effect.headObj (sentinelKey (generate_cache_key v ha dh))] }
          cfg (pyOr n cfg.network) (pyOr s cfg.station)
          (pyOr l (cfg.location.getD "*")) (pyOr c cfg.channel) ha dh =
        (some wave, w1) →
      (ensure_cached_in_r2 w v ha dh n s l c).2.store =
        storePutList w.store
          (missPuts w (generate_cache_key v ha dh) v ha dh wave) ∧
      alookup (ensure_cached_in_r2 w v ha dh n s l c).2.store
          (sentinelKey (generate_cache_key v ha dh)) =
        some (StoredObj.bytes (int16LE (normalizeInt16 [2, 0, 4]))))) ∧
    alookup (ensure_cached_in_r2 normWorld "kilauea" 12 24 none none none none).2.store
        (sentinelKey (generate_cache_key "kilauea" 12 24)) =
      some (StoredObj.bytes (int16LE (normalizeInt16 [2, 0, 4]))) := by
  have h := normalize_once_fills_int16_range [2, 0, 4] (by norm_num [maxAbsQ, listMeanQ])
  refine ⟨h, ?_⟩
  exact (h.2.2.2 normWorld "kilauea" 12 24 none none none none
    ⟨"HV", "HLPD", some "", "HHZ"⟩ ⟨[2, 0, 4], 50⟩ _
    rfl (by decide) rfl rfl
    (fetchWithFallback_first_success _ _ _ _ _ _ 12 24 ⟨[2, 0, 4], 50⟩ rfl)).2

/-- Claim C10: when the mean-centered samples are identically zero
(absolute peak 0), the `max_abs > 0` guard skips the division: the
normalization completes and returns the all-zero int16 array of the
input's length, and a populate call reaching the miss path completes
with an `ok` result and stores the sentinel as the byte encoding of that
all-zero array. -/
theorem zero_peak_division_guard (samples : List Int)
    (hm : maxAbsQ (samples.map (fun x : Int => (x : ℚ) - listMeanQ samples)) = 0) :
    normalizeInt16 samples = List.replicate samples.length 0 ∧
    (∀ (w : World) (v : String) (ha dh : Int) (n s l c : Option String)
        (cfg : VolcanoConfig) (wave : Waveform) (w1 : World),
      wave.samples = samples → samples ≠ [] →
      alookup w.store (sentinelKey (generate_cache_key v ha dh)) = none →
      alookup w.volcanoes (pyLower v) = some cfg →
      fetchWithFallback
          { w with log := w.log ++
              [Effect.headObj (sentinelKey (generate_cache_key v ha dh))] }
          cfg (pyOr n cfg.network) (pyOr s cfg.station)
          (pyOr l (cfg.location.getD "*")) (pyOr c cfg.channel) ha dh =
        (some wave, w1) →
      (ensure_cached_in_r2 w v ha dh n s l c).1 =
        .ok (generate_cache_key v ha dh,
             some (missProfiles w wave), some (missMetadata v ha dh wave)) ∧
      alookup (ensure_cached_in_r2 w v ha dh n s l c).2.store
          (sentinelKey (generate_cache_key v ha dh)) =
        some (StoredObj.bytes (int16LE (List.replicate samples.length 0)))) := by
  have hz := normalizeInt16_zero_peak samples hm
  refine ⟨hz, ?_⟩
  intro w v ha dh n s l c cfg wave w1 hws hne hmiss hcfg hfetch
  have hwne : wave.samples ≠ [] := by
    rw [hws]
    exact hne
  have he := ensure_miss_eq w v ha dh n s l c cfg wave w1 hmiss hcfg hfetch hwne
  constructor
  · rw [he]
  · rw [he]
    dsimp only
    rw [missPuts_sentinel_lookup, hws, hz]

/-- Witness for `zero_peak_division_guard` at the constant trace
`[7, 7, 7]` (centered identically zero) and, for the miss-path clause, at
`zeroWorld`, whose upstream always returns that trace: the stored
sentinel is the six zero bytes of three zero int16 samples. -/
theorem zero_peak_division_guard_witness :
    (normalizeInt16 [7, 7, 7] = List.replicate ([7, 7, 7] : List Int).length 0 ∧
     (∀ (w : World) (v : String) (ha dh : Int) (n s l c : Option String)
        (cfg : VolcanoConfig) (wave : Waveform) (w1 : World),
      wave.samples = [7, 7, 7] → ([7, 7, 7] : List Int) ≠ [] →
      alookup w.store (sentinelKey (generate_cache_key v ha dh)) = none →
      alookup w.volcanoes (pyLower v) = some cfg →
      fetchWithFallback
          { w with log := w.log ++
              [Effect.headObj (sentinelKey (generate_cache_key v ha dh))] }
          cfg (pyOr n cfg.network) (pyOr s cfg.station)
          (pyOr l (cfg.location.getD "*")) (pyOr c cfg.channel) ha dh =
        (some wave, w1) →
      (ensure_cached_in_r2 w v ha dh n s l c).1 =
        .ok (generate_cache_key v ha dh,
             some (missProfiles w wave), some (missMetadata v ha dh wave)) ∧
      alookup (ensure_cached_in_r2 w v ha dh n s l c).2.store
          (sentinelKey (generate_cache_key v ha dh)) =
        some (StoredObj.bytes (int16LE (List.replicate ([7, 7, 7] : List Int).length 0))))) ∧
    alookup (ensure_cached_in_r2 zeroWorld "kilauea" 12 24 none none none none).2.store
        (sentinelKey (generate_cache_key "kilauea" 12 24)) =
      some (StoredObj.bytes [0, 0, 0, 0, 0, 0]) := by
  have h := zero_peak_division_guard [7, 7, 7] (by norm_num [maxAbsQ, listMeanQ])
  refine ⟨h, ?_⟩
  have h2 := (h.2 zeroWorld "kilauea" 12 24 none none none none
    ⟨"HV", "HLPD", some "", "HHZ"⟩ ⟨[7, 7, 7], 50⟩ _
    rfl (by decide) rfl rfl
    (fetchWithFallback_first_success _ _ _ _ _ _ 12 24 ⟨[7, 7, 7], 50⟩ rfl)).2
  rw [h2]
  rfl

/-- Claim C4 (code bug): on a listing whose non-reserved chunk tails are
`{"2", "10", "1", "abc"}` the enumerator does not return the claimed
order `1, 2, 10, abc` — the Python 3 comparison sort over the mixed
`int`/`str` sort keys produced by `sort_key` raises `TypeError`, so
`list_zarr_chunk_keys` fails on any mixed listing; the reserved
descriptor name is excluded and the claimed ascending numeric order is
produced only when every tail parses as an integer. -/
theorem chunk_enumerator_mixed_tails_type_error :
    list_zarr_chunk_keys
      [("z/2", StoredObj.bytes [1]), ("z/10", StoredObj.bytes [2]),
       ("z/1", StoredObj.bytes [3]), ("z/abc", StoredObj.bytes [4]),
       ("z/.zarray", StoredObj.bytes [5])] "z/" = .error .typeError ∧
    list_zarr_chunk_keys
      [("z/2", StoredObj.bytes [1]), ("z/10", StoredObj.bytes [2]),
       ("z/1", StoredObj.bytes [3]), ("z/abc", StoredObj.bytes [4]),
       ("z/.zarray", StoredObj.bytes [5])] "z/" ≠
      .ok ["z/1", "z/2", "z/10", "z/abc"] ∧
    list_zarr_chunk_keys
      [("z/2", StoredObj.bytes [1]), ("z/10", StoredObj.bytes [2]),
       ("z/1", StoredObj.bytes [3]), ("z/.zarray", StoredObj.bytes [5])] "z/" =
      .ok ["z/1", "z/2", "z/10"] :=
  ⟨by decide, by decide, by decide⟩

theorem insSorted_perm {α : Type} (le : α → α → Bool) (x : α) :
    ∀ l : List α, List.Perm (insSorted le x l) (x :: l)
  | [] => List.Perm.refl _
  | y :: ys => by
    simp only [insSorted]
    split
    · exact ((insSorted_perm le x ys).cons y).trans (List.Perm.swap x y ys)
    · exact List.Perm.refl _

theorem isortBy_perm {α : Type} (le : α → α → Bool) :
    ∀ l : List α, List.Perm (isortBy le l) l
  | [] => List.Perm.refl _
  | x :: xs => (insSorted_perm le x (isortBy le xs)).trans ((isortBy_perm le xs).cons x)

theorem size_eq_toBytes_length (o : StoredObj) : o.toBytes.length = o.size := by
  cases o <;> rfl

theorem alookup_of_mem_nodup :
    ∀ (st : List (String × StoredObj)) (k : String) (o : StoredObj),
      (st.map Prod.fst).Nodup → (k, o) ∈ st → alookup st k = some o := by
  intro st
  induction st with
  | nil =>
    intro k o _ hm
    cases hm
  | cons kv rest ih =>
    intro k o hnd hm
    obtain ⟨k0, v0⟩ := kv
    rw [List.map_cons, List.nodup_cons] at hnd
    rcases List.mem_cons.mp hm with h | h
    · injection h with h1 h2
      subst h1
      subst h2
      simp [alookup]
    · have hne : k0 ≠ k := by
        intro he
        subst he
        exact hnd.1 (List.mem_map.mpr ⟨(k0, o), h, rfl⟩)
      simp [alookup, hne, ih k o hnd.2 h]

theorem mem_storePut_keys :
    ∀ (st : List (String × StoredObj)) (k : String) (v : StoredObj) (a : String),
      a ∈ (storePut st k v).map Prod.fst → a = k ∨ a ∈ st.map Prod.fst := by
  intro st
  induction st with
  | nil =>
    intro k v a h
    simp [storePut] at h
    exact Or.inl h
  | cons kv rest ih =>
    intro k v a h
    obtain ⟨k0, v0⟩ := kv
    simp only [storePut] at h
    by_cases he : k0 = k
    · rw [if_pos he] at h
      simp only [List.map_cons, List.mem_cons] at h
      rcases h with h | h
      · exact Or.inl h
      · exact Or.inr (by simp [h])
    · rw [if_neg he] at h
      simp only [List.map_cons, List.mem_cons] at h
      rcases h with h | h
      · exact Or.inr (by simp [h])
      · rcases ih k v a h with h2 | h2
        · exact Or.inl h2
        · exact Or.inr (by simp [h2])

theorem storePut_keys_nodup :
    ∀ (st : List (String × StoredObj)) (k : String) (v : StoredObj),
      (st.map Prod.fst).Nodup → ((storePut st k v).map Prod.fst).Nodup := by
  intro st
  induction st with
  | nil =>
    intro k v _
    simp [storePut]
  | cons kv rest ih =>
    intro k v hnd
    obtain ⟨k0, v0⟩ := kv
    rw [List.map_cons, List.nodup_cons] at hnd
    simp only [storePut]
    by_cases h : k0 = k
    · rw [if_pos h, List.map_cons, List.nodup_cons]
      exact ⟨h ▸ hnd.1, hnd.2⟩
    · rw [if_neg h, List.map_cons, List.nodup_cons]
      refine ⟨fun hmem => ?_, ih k v hnd.2⟩
      rcases mem_storePut_keys rest k v k0 hmem with he | hin
      · exact h he
      · exact hnd.1 hin

theorem storePutList_keys_nodup :
    ∀ (puts : List (String × StoredObj)) (st : List (String × StoredObj)),
      (st.map Prod.fst).Nodup → ((storePutList st puts).map Prod.fst).Nodup := by
  intro puts
  induction puts with
  | nil =>
    intro st hnd
    exact hnd
  | cons kv rest ih =>
    intro st hnd
    rw [storePutList_cons]
    exact ih _ (storePut_keys_nodup st kv.1 kv.2 hnd)

/-- `ensure_cached_in_r2` only writes through `put_object`, so it
preserves distinctness of the store's keys. -/
theorem ensure_store_nodup (w : World) (v : String) (ha dh : Int) (n s l c : Option String)
    (hnd : (w.store.map Prod.fst).Nodup) :
    (((ensure_cached_in_r2 w v ha dh n s l c).2.store).map Prod.fst).Nodup := by
  cases hs : alookup w.store (sentinelKey (generate_cache_key v ha dh)) with
  | some obj =>
    rw [ensure_hit w v ha dh n s l c obj hs]
    exact hnd
  | none =>
    cases hc : alookup w.volcanoes (pyLower v) with
    | none =>
      rw [ensure_unknown_volcano w v ha dh n s l c hs hc]
      exact hnd
    | some cfg =>
      rcases hf : fetchWithFallback
          { w with log := w.log ++ [Effect.headObj (sentinelKey (generate_cache_key v ha dh))] }
          cfg (pyOr n cfg.network) (pyOr s cfg.station)
          (pyOr l (cfg.location.getD "*")) (pyOr c cfg.channel) ha dh with ⟨ow, w1⟩
      have hst : w1.store = w.store := by
        have h := fetchWithFallback_store
          { w with log := w.log ++ [Effect.headObj (sentinelKey (generate_cache_key v ha dh))] }
          cfg (pyOr n cfg.network) (pyOr s cfg.station)
          (pyOr l (cfg.location.getD "*")) (pyOr c cfg.channel) ha dh
        rw [hf] at h
        exact h
      cases ow with
      | none =>
        rw [ensure_fetch_failed w v ha dh n s l c cfg w1 hs hc hf]
        dsimp only
        rw [hst]
        exact hnd
      | some wave =>
        by_cases hemp : wave.samples = []
        · rw [ensure_empty_samples w v ha dh n s l c cfg wave w1 hs hc hf hemp]
          dsimp only
          rw [hst]
          exact storePut_keys_nodup _ _ _ hnd
        · rw [ensure_miss_eq w v ha dh n s l c cfg wave w1 hs hc hf hemp]
          dsimp only
          exact storePutList_keys_nodup _ _ hnd

theorem streamKeysGo_sizes (st : List (String × StoredObj)) :
    ∀ (ks : List String) (w : World), w.store = st →
      (streamKeysGo w ks).1.2 = none →
      (((streamKeysGo w ks).1.1).map List.length).sum =
        (ks.map (fun k => (alookup st k).elim 0 (fun o => o.toBytes.length))).sum := by
  intro ks
  induction ks with
  | nil =>
    intro w _ _
    simp [streamKeysGo]
  | cons k rest ih =>
    intro w hw hab
    simp only [streamKeysGo] at hab ⊢
    cases hl : alookup w.store k with
    | none =>
      rw [hl] at hab
      dsimp only at hab
      exact absurd hab (by simp)
    | some obj =>
      rw [hl] at hab
      dsimp only at hab ⊢
      rw [List.map_append, List.sum_append]
      have hblob : ((streamSingleBlob obj.toBytes).map List.length).sum =
          obj.toBytes.length := by
        rw [← List.length_flatten, streamSingleBlob_flatten]
      rw [hblob, List.map_cons, List.sum_cons]
      rw [ih { w with log := w.log ++ [Effect.getObj k] } hw hab]
      rw [hw] at hl
      rw [hl]
      rfl

theorem map_fst_filter_comm (p : String → Bool) :
    ∀ A : List (String × Nat),
      (A.map Prod.fst).filter p = (A.filter (fun kv => p kv.1)).map Prod.fst := by
  intro A
  induction A with
  | nil => rfl
  | cons kv rest ih =>
    by_cases h : p kv.1 <;> simp [List.filter_cons, h, ih]

/-- A successful chunk enumeration returns a permutation of the filtered
listing's keys (whichever of the two sort branches produced it). -/
theorem list_zarr_chunk_keys_perm (st : List (String × StoredObj)) (pfx : String)
    (keys : List String) (h : list_zarr_chunk_keys st pfx = .ok keys) :
    List.Perm keys (((storeList st pfx).map Prod.fst).filter
      (fun k => decide (zarrTail k ∉ reservedZarrNames))) := by
  simp only [list_zarr_chunk_keys] at h
  split at h
  · exact absurd h (by simp)
  · split at h
    · injection h with h1
      rw [← h1]
      exact isortBy_perm _ _
    · injection h with h1
      rw [← h1]
      exact isortBy_perm _ _

theorem mem_storeList {st : List (String × StoredObj)} {pfx : String} {kv : String × Nat}
    (h : kv ∈ storeList st pfx) : ∃ e ∈ st, kv = (e.1, e.2.size) := by
  simp only [storeList] at h
  have h2 := (isortBy_perm _ _).mem_iff.mp h
  obtain ⟨e, he, hekv⟩ := List.mem_map.mp h2
  exact ⟨e, (List.mem_filter.mp he).1, hekv.symm⟩

/-- Claim C5 (amended): whenever the delivery route returns a stream
response that runs to completion (`aborted = none`), the Content-Length
it declared before emitting any bytes equals the total number of bytes
actually streamed — the stored object's size for the raw layout, and the
sum of the non-reserved chunk objects' sizes for the chunked layout
(given distinct keys in the backing store).  The unqualified claim fails
for streams that abort after the commitment, as the counterexample
shows. -/
theorem content_length_matches_completed_stream
    (w : World) (v : String) (hours : Nat) (sq cq : Option String) (ha : Int)
    (n s l c : Option String) (cl : Nat) (body : List (List Nat))
    (hnd : (w.store.map Prod.fst).Nodup)
    (hres : (stream_zarr w v hours sq cq ha n s l c).1 =
      HttpResponse.streamResp cl body none) :
    cl = (body.map List.length).sum := by
  have hnd1 := ensure_store_nodup w (pyLower v) ha (hours : Int) n s l c hnd
  simp only [stream_zarr] at hres
  cases hcv : alookup w.volcanoes (pyLower v) with
  | none =>
    rw [hcv] at hres
    dsimp only at hres
    exact HttpResponse.noConfusion hres
  | some cfg =>
    rw [hcv] at hres
    dsimp only at hres
    rcases he : ensure_cached_in_r2 w (pyLower v) ha (hours : Int) n s l c with ⟨r, w1⟩
    rw [he] at hres hnd1
    cases r with
    | error e =>
      dsimp only at hres
      exact HttpResponse.noConfusion hres
    | ok tr =>
      obtain ⟨ck3, pf, md⟩ := tr
      dsimp only at hres hnd1
      by_cases hr : sq.getD "raw" = "raw"
      · rw [hr] at hres
        rw [if_pos (rfl : ("raw" : String) = "raw")] at hres
        cases hext : extOfCompression
            (if cq.getD "gzip" = "none" then "int16" else cq.getD "gzip") with
        | none =>
          rw [hext] at hres
          dsimp only at hres
          exact HttpResponse.noConfusion hres
        | some ext =>
          rw [hext] at hres
          dsimp only at hres
          cases hobj : alookup w1.store
              (r2_key ck3 (if cq.getD "gzip" = "none" then "int16" else cq.getD "gzip")
                "raw" ext) with
          | none =>
            rw [hobj] at hres
            dsimp only at hres
            exact HttpResponse.noConfusion hres
          | some obj =>
            rw [hobj] at hres
            dsimp only at hres
            simp only [stream_variant_from_r2] at hres
            rw [if_pos trivial] at hres
            rw [hext] at hres
            dsimp only at hres
            rw [hobj] at hres
            dsimp only at hres
            injection hres with h1 h2 h3
            rw [← h1, ← h2]
            rw [← List.length_flatten, streamSingleBlob_flatten, size_eq_toBytes_length]
      · rw [if_neg hr] at hres
        by_cases hz : sq.getD "raw" = "zarr"
        · rw [hz] at hres
          rw [if_pos (rfl : ("zarr" : String) = "zarr")] at hres
          dsimp only at hres
          simp only [stream_variant_from_r2] at hres
          rw [if_neg (by decide : ¬ ("zarr" : String) = "raw")] at hres
          rw [if_pos trivial] at hres
          cases hk : list_zarr_chunk_keys w1.store
              (r2_key ck3 (if cq.getD "gzip" = "none" then "int16" else cq.getD "gzip")
                "zarr" "/data.zarr/") with
          | error e =>
            rw [hk] at hres
            dsimp only at hres
            injection hres with h1 h2 h3
            exact absurd h3 (by simp)
          | ok keys =>
            rw [hk] at hres
            dsimp only at hres
            injection hres with h1 h2 h3
            rw [← h1, ← h2]
            rw [streamKeysGo_sizes w1.store keys _ (by rfl) h3]
            have hperm := list_zarr_chunk_keys_perm w1.store
              (r2_key ck3 (if cq.getD "gzip" = "none" then "int16" else cq.getD "gzip")
                "zarr" "/data.zarr/") keys hk
            rw [(hperm.map
              (fun k => (alookup w1.store k).elim 0 (fun o => o.toBytes.length))).sum_eq]
            rw [map_fst_filter_comm, List.map_map]
            have hpt : ∀ kv ∈ (storeList w1.store
                (r2_key ck3 (if cq.getD "gzip" = "none" then "int16" else cq.getD "gzip")
                  "zarr" "/data.zarr/")).filter
                (fun kv => decide (zarrTail kv.1 ∉ reservedZarrNames)),
                ((fun k => (alookup w1.store k).elim 0 (fun o => o.toBytes.length)) ∘
                  Prod.fst) kv = Prod.snd kv := by
              intro kv hkv
              obtain ⟨e, hest, hkve⟩ := mem_storeList (List.mem_of_mem_filter hkv)
              rw [hkve]
              dsimp only [Function.comp]
              rw [alookup_of_mem_nodup w1.store e.1 e.2 hnd1 (by simpa using hest)]
              exact size_eq_toBytes_length e.2
            rw [List.map_congr_left hpt]
        · rw [if_neg hz] at hres
          exact HttpResponse.noConfusion hres

/-- On a populated key, a `raw` request whose compression has no
extension mapping is answered 400 only after the populate step's three
store probes. -/
theorem stream_zarr_raw_bad_compression (w : World) (v : String) (hours : Nat)
    (comp : String) (ha : Int) (n s l c : Option String) (cfg : VolcanoConfig)
    (obj : StoredObj)
    (hcfg : alookup w.volcanoes (pyLower v) = some cfg)
    (hs : alookup w.store (sentinelKey (generate_cache_key (pyLower v) ha (hours : Int))) =
      some obj)
    (hc1 : comp ≠ "none") (hext : extOfCompression comp = none) :
    stream_zarr w v hours (some "raw") (some comp) ha n s l c =
      (.errorResp 400 "Unsupported compression",
       { w with log := w.log ++
          [Effect.headObj (sentinelKey (generate_cache_key (pyLower v) ha (hours : Int))),
           Effect.getObj (profilesKey (generate_cache_key (pyLower v) ha (hours : Int))),
           Effect.getObj (metadataKey (generate_cache_key (pyLower v) ha (hours : Int)))] }) := by
  simp only [stream_zarr]
  rw [hcfg]
  dsimp only
  rw [ensure_hit w (pyLower v) ha (hours : Int) n s l c obj hs]
  dsimp only [Option.getD]
  rw [if_neg hc1]
  rw [if_pos (rfl : ("raw" : String) = "raw")]
  rw [hext]

/-- On a populated key, a request naming a storage outside
`{raw, zarr}` is answered 400 only after the populate step's three
store probes (the compression value is never examined). -/
theorem stream_zarr_bad_storage (w : World) (v : String) (hours : Nat)
    (stor comp : String) (ha : Int) (n s l c : Option String) (cfg : VolcanoConfig)
    (obj : StoredObj)
    (hcfg : alookup w.volcanoes (pyLower v) = some cfg)
    (hs : alookup w.store (sentinelKey (generate_cache_key (pyLower v) ha (hours : Int))) =
      some obj)
    (hs1 : stor ≠ "raw") (hs2 : stor ≠ "zarr") :
    stream_zarr w v hours (some stor) (some comp) ha n s l c =
      (.errorResp 400 "Unsupported storage",
       { w with log := w.log ++
          [Effect.headObj (sentinelKey (generate_cache_key (pyLower v) ha (hours : Int))),
           Effect.getObj (profilesKey (generate_cache_key (pyLower v) ha (hours : Int))),
           Effect.getObj (metadataKey (generate_cache_key (pyLower v) ha (hours : Int)))] }) := by
  simp only [stream_zarr]
  rw [hcfg]
  dsimp only
  rw [ensure_hit w (pyLower v) ha (hours : Int) n s l c obj hs]
  dsimp only [Option.getD]
  rw [if_neg hs1, if_neg hs2]

/-- On a populated key, the chunked (`zarr`) branch answers with a
stream response for every compression value: it never returns a 400. -/
theorem stream_zarr_zarr_streams (w : World) (v : String) (hours : Nat)
    (comp : String) (ha : Int) (n s l c : Option String) (cfg : VolcanoConfig)
    (obj : StoredObj)
    (hcfg : alookup w.volcanoes (pyLower v) = some cfg)
    (hs : alookup w.store (sentinelKey (generate_cache_key (pyLower v) ha (hours : Int))) =
      some obj)
    (hc1 : comp ≠ "none") :
    ∃ cl body ab, (stream_zarr w v hours (some "zarr") (some comp) ha n s l c).1 =
      HttpResponse.streamResp cl body ab := by
  simp only [stream_zarr]
  rw [hcfg]
  dsimp only
  rw [ensure_hit w (pyLower v) ha (hours : Int) n s l c obj hs]
  dsimp only [Option.getD]
  rw [if_neg hc1]
  rw [if_neg (by decide : ¬ ("zarr" : String) = "raw")]
  rw [if_pos (rfl : ("zarr" : String) = "zarr")]
  dsimp only
  unfold stream_variant_from_r2
  rw [if_neg (by decide : ¬ ("zarr" : String) = "raw")]
  first
  | rw [if_pos trivial]
  | rw [if_pos (rfl : ("zarr" : String) = "zarr")]
  dsimp only
  cases hk : list_zarr_chunk_keys w.store
      (r2_key (generate_cache_key (pyLower v) ha (hours : Int)) comp "zarr" "/data.zarr/") with
  | error e =>
    dsimp only
    exact ⟨_, _, _, rfl⟩
  | ok keys =>
    dsimp only
    exact ⟨_, _, _, rfl⟩

theorem storeList_single_miss (k : String) (o : StoredObj) (pfx : String)
    (h : pfx.data.isPrefixOf k.data = false) :
    storeList [(k, o)] pfx = [] := by
  simp [storeList, List.filter_cons, h, isortBy]

theorem list_zarr_chunk_keys_single_miss (k : String) (o : StoredObj) (pfx : String)
    (h : pfx.data.isPrefixOf k.data = false) :
    list_zarr_chunk_keys [(k, o)] pfx = .ok [] := by
  simp [list_zarr_chunk_keys, storeList_single_miss k o pfx h, isortBy]

/-- On a populated key whose chunked prefix lists nothing, the route
answers 200 with Content-Length 0 and an empty, completed stream — no
rejection at all, for any compression value. -/
theorem stream_zarr_zarr_empty_eval (w : World) (v : String) (hours : Nat) (comp : String)
    (ha : Int) (n s l c : Option String) (cfg : VolcanoConfig) (sobj : StoredObj)
    (hcfg : alookup w.volcanoes (pyLower v) = some cfg)
    (hs : alookup w.store (sentinelKey (generate_cache_key (pyLower v) ha (hours : Int))) =
      some sobj)
    (hc1 : comp ≠ "none")
    (hk : list_zarr_chunk_keys w.store
      (r2_key (generate_cache_key (pyLower v) ha (hours : Int)) comp "zarr" "/data.zarr/") =
      .ok [])
    (htot : (((storeList w.store (r2_key (generate_cache_key (pyLower v) ha (hours : Int))
        comp "zarr" "/data.zarr/")).filter
      (fun kv => decide (zarrTail kv.1 ∉ reservedZarrNames))).map Prod.snd).sum = 0) :
    (stream_zarr w v hours (some "zarr") (some comp) ha n s l c).1 =
      HttpResponse.streamResp 0 [] none := by
  simp only [stream_zarr]
  rw [hcfg]
  dsimp only
  rw [ensure_hit w (pyLower v) ha (hours : Int) n s l c sobj hs]
  dsimp only [Option.getD]
  rw [if_neg hc1]
  rw [if_neg (by decide : ¬ ("zarr" : String) = "raw")]
  rw [if_pos (rfl : ("zarr" : String) = "zarr")]
  dsimp only
  unfold stream_variant_from_r2
  rw [if_neg (by decide : ¬ ("zarr" : String) = "raw")]
  first
  | rw [if_pos trivial]
  | rw [if_pos (rfl : ("zarr" : String) = "zarr")]
  dsimp only
  rw [hk]
  dsimp only [streamKeysGo]
  rw [htot]

/-- Claim C6 (amended): `stream_zarr` validates nothing before running
`ensure_cached_in_r2`, and what it rejects depends on the layout.  On a
populated key: (a) the `raw` layout with a compression outside
`{int16, gzip, blosc}` (not the `none` alias) is answered 400
"Unsupported compression" with zero body bytes, but only after the
populate step's sentinel head probe and two side-object reads are in
the effect log; (b) a storage outside `{raw, zarr}` is likewise
answered 400 "Unsupported storage" only after those three store calls;
and (c) the chunked (`zarr`) layout never rejects an invalid
compression at all — it always answers with a stream response (in the
counterexample, a 200 with Content-Length 0 and an empty completed
stream).  The original "rejected before any I/O, for every invalid
codec/layout combination" is false on both counts. -/
theorem unsupported_variant_rejected_after_populate (w : World) (v : String) (hours : Nat)
    (comp stor : String) (ha : Int) (n s l c : Option String) (cfg : VolcanoConfig)
    (obj : StoredObj)
    (hcfg : alookup w.volcanoes (pyLower v) = some cfg)
    (hs : alookup w.store (sentinelKey (generate_cache_key (pyLower v) ha (hours : Int))) =
      some obj)
    (hc1 : comp ≠ "none") (hc2 : comp ≠ "int16") (hc3 : comp ≠ "gzip")
    (hc4 : comp ≠ "blosc") (hs1 : stor ≠ "raw") (hs2 : stor ≠ "zarr") :
    (stream_zarr w v hours (some "raw") (some comp) ha n s l c =
      (.errorResp 400 "Unsupported compression",
       { w with log := w.log ++
          [Effect.headObj (sentinelKey (generate_cache_key (pyLower v) ha (hours : Int))),
           Effect.getObj (profilesKey (generate_cache_key (pyLower v) ha (hours : Int))),
           Effect.getObj (metadataKey (generate_cache_key (pyLower v) ha (hours : Int)))] })) ∧
    (stream_zarr w v hours (some stor) (some comp) ha n s l c =
      (.errorResp 400 "Unsupported storage",
       { w with log := w.log ++
          [Effect.headObj (sentinelKey (generate_cache_key (pyLower v) ha (hours : Int))),
           Effect.getObj (profilesKey (generate_cache_key (pyLower v) ha (hours : Int))),
           Effect.getObj (metadataKey (generate_cache_key (pyLower v) ha (hours : Int)))] })) ∧
    (∃ cl body ab, (stream_zarr w v hours (some "zarr") (some comp) ha n s l c).1 =
      HttpResponse.streamResp cl body ab) := by
  refine ⟨stream_zarr_raw_bad_compression w v hours comp ha n s l c cfg obj hcfg hs hc1 ?_,
    stream_zarr_bad_storage w v hours stor comp ha n s l c cfg obj hcfg hs hs1 hs2,
    stream_zarr_zarr_streams w v hours comp ha n s l c cfg obj hcfg hs hc1⟩
  simp only [extOfCompression, if_neg hc2, if_neg hc3, if_neg hc4]

/-- Counterexample to the literal claim C6: on a populated key, (a) the
invalid raw compression `"weird"` is answered 400 with an effect log
that already records a `head_object` and two `get_object` calls — I/O
performed before the rejection (the call started with an empty log) —
and (b) the chunked layout with the same invalid compression is not
rejected at all: the route answers 200 with Content-Length 0 and an
empty, completed stream. -/
theorem unsupported_variant_io_before_reject_counterexample :
    (stream_zarr hitWorld "kilauea" 24 (some "raw") (some "weird") 12 none none none none =
      (.errorResp 400 "Unsupported compression",
       { hitWorld with log :=
          [Effect.headObj (sentinelKey (generate_cache_key "kilauea" 12 24)),
           Effect.getObj (profilesKey (generate_cache_key "kilauea" 12 24)),
           Effect.getObj (metadataKey (generate_cache_key "kilauea" 12 24))] })) ∧
    hitWorld.log = [] ∧
    (stream_zarr hitWorld "kilauea" 24 (some "zarr") (some "weird") 12
        none none none none).1 =
      HttpResponse.streamResp 0 [] none := by
  refine ⟨?_, rfl, ?_⟩
  · exact stream_zarr_raw_bad_compression hitWorld "kilauea" 24 "weird" 12
      none none none none ⟨"HV", "HLPD", some "", "HHZ"⟩ (StoredObj.bytes [1, 2, 3])
      rfl hitWorld_sentinel (by decide) (by decide)
  · exact stream_zarr_zarr_empty_eval hitWorld "kilauea" 24 "weird" 12
      none none none none ⟨"HV", "HLPD", some "", "HHZ"⟩ (StoredObj.bytes [1, 2, 3])
      rfl hitWorld_sentinel (by decide)
      (by
        rw [show generate_cache_key (pyLower "kilauea") 12 ((24 : Nat) : Int) =
          generate_cache_key "kilauea" 12 24 from rfl]
        rw [show hitWorld.store =
          [(sentinelKey (generate_cache_key "kilauea" 12 24), StoredObj.bytes [1, 2, 3])]
          from rfl]
        exact list_zarr_chunk_keys_single_miss
          (sentinelKey (generate_cache_key "kilauea" 12 24)) (StoredObj.bytes [1, 2, 3])
          (r2_key (generate_cache_key "kilauea" 12 24) "weird" "zarr" "/data.zarr/") rfl)
      (by
        rw [show generate_cache_key (pyLower "kilauea") 12 ((24 : Nat) : Int) =
          generate_cache_key "kilauea" 12 24 from rfl]
        rw [show hitWorld.store =
          [(sentinelKey (generate_cache_key "kilauea" 12 24), StoredObj.bytes [1, 2, 3])]
          from rfl]
        rw [storeList_single_miss
          (sentinelKey (generate_cache_key "kilauea" 12 24)) (StoredObj.bytes [1, 2, 3])
          (r2_key (generate_cache_key "kilauea" 12 24) "weird" "zarr" "/data.zarr/") rfl]
        rfl)

theorem isPrefixOf_self_append (l m : List Char) : l.isPrefixOf (l ++ m) = true := by
  induction l with
  | nil => cases m <;> rfl
  | cons a rest ih => simp [List.isPrefixOf, ih]

theorem isPrefixOf_string_append (p t : String) :
    p.data.isPrefixOf ((p ++ t) : String).data = true :=
  isPrefixOf_self_append p.data t.data

theorem charListLe_append (l : List Char) :
    ∀ a b, charListLe (l ++ a) (l ++ b) = charListLe a b := by
  induction l with
  | nil =>
    intro a b
    rfl
  | cons ch rest ih =>
    intro a b
    simp [charListLe, lt_self_iff_false, ih]

theorem strLe_pfx_append (p a b : String) :
    strLe (p ++ a) (p ++ b) = charListLe a.data b.data := by
  show charListLe (p.data ++ a.data) (p.data ++ b.data) = charListLe a.data b.data
  exact charListLe_append p.data a.data b.data

theorem lastSeg_append (a b : List Char) :
    ∀ acc, lastSeg (a ++ b) acc = lastSeg b (lastSeg a acc) := by
  induction a with
  | nil =>
    intro acc
    rfl
  | cons ch rest ih =>
    intro acc
    simp only [List.cons_append, lastSeg]
    by_cases h : ch = '/'
    · rw [if_pos h, if_pos h]
      exact ih []
    · rw [if_neg h, if_neg h]
      exact ih (acc ++ [ch])

theorem lastSeg_zarrPfx (ck : String) :
    lastSeg ((r2_key ck "gzip" "zarr" "/data.zarr/") : String).data [] = [] := by
  show lastSeg ((("cache/" ++ "gzip" ++ "/" ++ "zarr" ++ "/" ++ ck) : String).data ++
    ("/data.zarr/" : String).data) [] = []
  rw [lastSeg_append]
  rfl

theorem zarrTail_pfx (p t : String) (hp : lastSeg p.data [] = []) :
    zarrTail (p ++ t) = String.mk (lastSeg t.data []) := by
  show String.mk (lastSeg (p.data ++ t.data) []) = _
  rw [lastSeg_append, hp]

theorem mixStore_storeList (ck : String) :
    storeList (mixStore ck) (r2_key ck "gzip" "zarr" "/data.zarr/") =
      [(r2_key ck "gzip" "zarr" "/data.zarr/" ++ ".zarray", 1),
       (r2_key ck "gzip" "zarr" "/data.zarr/" ++ "1", 1),
       (r2_key ck "gzip" "zarr" "/data.zarr/" ++ "10", 1),
       (r2_key ck "gzip" "zarr" "/data.zarr/" ++ "2", 1),
       (r2_key ck "gzip" "zarr" "/data.zarr/" ++ "abc", 1)] := by
  have hsent : ((r2_key ck "gzip" "zarr" "/data.zarr/") : String).data.isPrefixOf
      (sentinelKey ck).data = false := rfl
  simp +decide only [storeList, mixStore, List.filter_cons, List.filter_nil, hsent,
    isPrefixOf_string_append, if_true, if_false, List.map_cons, List.map_nil,
    StoredObj.size, List.length_cons, List.length_nil, isortBy, insSorted,
    strLe_pfx_append]

theorem mixStore_typeError (ck : String) :
    list_zarr_chunk_keys (mixStore ck) (r2_key ck "gzip" "zarr" "/data.zarr/") =
      .error .typeError := by
  have hzt : ∀ t : String, zarrTail (r2_key ck "gzip" "zarr" "/data.zarr/" ++ t) =
      String.mk (lastSeg t.data []) :=
    fun t => zarrTail_pfx _ t (lastSeg_zarrPfx ck)
  simp +decide only [list_zarr_chunk_keys, mixStore_storeList, List.map_cons, List.map_nil,
    List.filter_cons, List.filter_nil, hzt, chunkSortKeyInt, List.any_cons, List.any_nil,
    if_true, if_false]

theorem mixStore_total (ck : String) :
    (((storeList (mixStore ck) (r2_key ck "gzip" "zarr" "/data.zarr/")).filter
      (fun kv => decide (zarrTail kv.1 ∉ reservedZarrNames))).map Prod.snd).sum = 4 := by
  have hzt : ∀ t : String, zarrTail (r2_key ck "gzip" "zarr" "/data.zarr/" ++ t) =
      String.mk (lastSeg t.data []) :=
    fun t => zarrTail_pfx _ t (lastSeg_zarrPfx ck)
  simp +decide only [mixStore_storeList, List.filter_cons, List.filter_nil, hzt,
    List.map_cons, List.map_nil, if_true, if_false, List.sum_cons, List.sum_nil]

/-- On a populated key, a chunked request whose chunk enumeration raises
declares the listing total and then aborts with zero chunks emitted. -/
theorem stream_zarr_zarr_abort_eval (w : World) (v : String) (hours : Nat) (comp : String)
    (ha : Int) (n s l c : Option String) (cfg : VolcanoConfig) (sobj : StoredObj) (e : PyErr)
    (hcfg : alookup w.volcanoes (pyLower v) = some cfg)
    (hs : alookup w.store (sentinelKey (generate_cache_key (pyLower v) ha (hours : Int))) =
      some sobj)
    (hc1 : comp ≠ "none")
    (hk : list_zarr_chunk_keys w.store
      (r2_key (generate_cache_key (pyLower v) ha (hours : Int)) comp "zarr" "/data.zarr/") =
      .error e) :
    (stream_zarr w v hours (some "zarr") (some comp) ha n s l c).1 =
      HttpResponse.streamResp
        ((((storeList w.store (r2_key (generate_cache_key (pyLower v) ha (hours : Int))
            comp "zarr" "/data.zarr/")).filter
          (fun kv => decide (zarrTail kv.1 ∉ reservedZarrNames))).map Prod.snd).sum)
        [] (some e) := by
  simp only [stream_zarr]
  rw [hcfg]
  dsimp only
  rw [ensure_hit w (pyLower v) ha (hours : Int) n s l c sobj hs]
  dsimp only [Option.getD]
  rw [if_neg hc1]
  rw [if_neg (by decide : ¬ ("zarr" : String) = "raw")]
  rw [if_pos (rfl : ("zarr" : String) = "zarr")]
  dsimp only
  unfold stream_variant_from_r2
  rw [if_neg (by decide : ¬ ("zarr" : String) = "raw")]
  first
  | rw [if_pos trivial]
  | rw [if_pos (rfl : ("zarr" : String) = "zarr")]
  dsimp only
  rw [hk]

/-- Counterexample to the literal claim C5: a chunked request over a
mixed-tail listing declares a Content-Length of 4 bytes, then the chunk
enumerator raises `TypeError` inside the generator, so the stream aborts
having emitted zero bytes — the commitment does not equal the bytes
streamed. -/
theorem content_length_commitment_counterexample :
    (stream_zarr zarrMixWorld "kilauea" 24 (some "zarr") (some "gzip") 12
        none none none none).1 =
      HttpResponse.streamResp 4 [] (some PyErr.typeError) ∧
    (4 : Nat) ≠ (([] : List (List Nat)).map List.length).sum := by
  refine ⟨?_, by decide⟩
  have h := stream_zarr_zarr_abort_eval zarrMixWorld "kilauea" 24 "gzip" 12
    none none none none ⟨"HV", "HLPD", some "", "HHZ"⟩ (StoredObj.bytes [1, 2, 3])
    PyErr.typeError rfl
    (by
      rw [show generate_cache_key (pyLower "kilauea") 12 ((24 : Nat) : Int) =
        generate_cache_key "kilauea" 12 24 from rfl]
      simp [zarrMixWorld, mixStore, alookup])
    (by decide)
    (mixStore_typeError (generate_cache_key "kilauea" 12 24))
  rw [h]
  rw [show pyLower "kilauea" = "kilauea" from rfl,
    show ((24 : Nat) : Int) = (24 : Int) from rfl,
    show zarrMixWorld.store = mixStore (generate_cache_key "kilauea" 12 24) from rfl]
  rw [mixStore_total (generate_cache_key "kilauea" 12 24)]

/-- On a populated key with the default storage and compression, the
route streams the stored gzip raw blob and declares its stored size. -/
theorem stream_zarr_raw_hit_eval (w : World) (v : String) (hours : Nat) (ha : Int)
    (n s l c : Option String) (cfg : VolcanoConfig) (sobj obj : StoredObj)
    (hcfg : alookup w.volcanoes (pyLower v) = some cfg)
    (hs : alookup w.store (sentinelKey (generate_cache_key (pyLower v) ha (hours : Int))) =
      some sobj)
    (hobj : alookup w.store
      (r2_key (generate_cache_key (pyLower v) ha (hours : Int)) "gzip" "raw" ".bin.gz") =
      some obj) :
    (stream_zarr w v hours none none ha n s l c).1 =
      HttpResponse.streamResp obj.size (streamSingleBlob obj.toBytes) none := by
  simp only [stream_zarr]
  rw [hcfg]
  dsimp only
  rw [ensure_hit w (pyLower v) ha (hours : Int) n s l c sobj hs]
  dsimp only [Option.getD]
  rw [if_neg (by decide : ¬ ("gzip" : String) = "none")]
  rw [if_pos (rfl : ("raw" : String) = "raw")]
  rw [show extOfCompression "gzip" = some ".bin.gz" from rfl]
  dsimp only
  rw [hobj]
  dsimp only
  unfold stream_variant_from_r2
  first
  | rw [if_pos trivial]
  | rw [if_pos (rfl : ("raw" : String) = "raw")]
  rw [show extOfCompression "gzip" = some ".bin.gz" from rfl]
  dsimp only
  rw [hobj]

/-- Witness for `content_length_matches_completed_stream`: a completed
raw-layout stream of the 2-byte gzip blob declares exactly the 2 bytes
it streams. -/
theorem content_length_matches_completed_stream_witness :
    (rawHitWorld.store.map Prod.fst).Nodup ∧
    (stream_zarr rawHitWorld "kilauea" 24 none none 12 none none none none).1 =
      HttpResponse.streamResp 2 [[9, 9]] none ∧
    (2 : Nat) = (([[9, 9]] : List (List Nat)).map List.length).sum := by
  have hnd : (rawHitWorld.store.map Prod.fst).Nodup := by
    simp [rawHitWorld, List.nodup_cons]
    exact fun h => gzipRawKey_ne_sentinel _ _ h.symm
  have hres : (stream_zarr rawHitWorld "kilauea" 24 none none 12 none none none none).1 =
      HttpResponse.streamResp 2 [[9, 9]] none := by
    have h := stream_zarr_raw_hit_eval rawHitWorld "kilauea" 24 12
      none none none none ⟨"HV", "HLPD", some "", "HHZ"⟩
      (StoredObj.bytes [1, 2, 3]) (StoredObj.bytes [9, 9]) rfl
      (by
        rw [show generate_cache_key (pyLower "kilauea") 12 ((24 : Nat) : Int) =
          generate_cache_key "kilauea" 12 24 from rfl]
        simp [rawHitWorld, alookup])
      (by
        rw [show generate_cache_key (pyLower "kilauea") 12 ((24 : Nat) : Int) =
          generate_cache_key "kilauea" 12 24 from rfl]
        rw [show rawHitWorld.store = [(sentinelKey (generate_cache_key "kilauea" 12 24),
          StoredObj.bytes [1, 2, 3]),
          (r2_key (generate_cache_key "kilauea" 12 24) "gzip" "raw" ".bin.gz",
           StoredObj.bytes [9, 9])] from rfl]
        rw [alookup_cons]
        rw [if_neg (fun h => gzipRawKey_ne_sentinel _ _ h.symm)]
        rw [alookup_cons]
        rw [if_pos rfl])
    rw [h]
    rfl
  exact ⟨hnd, hres, content_length_matches_completed_stream rawHitWorld "kilauea" 24
    none none 12 none none none none 2 [[9, 9]] hnd hres⟩

/-- Witness for `unsupported_variant_rejected_after_populate`: the
concrete compression `"weird"` and storage `"sideways"` on the
populated `hitWorld`. -/
theorem unsupported_variant_rejected_after_populate_witness :
    (stream_zarr hitWorld "kilauea" 24 (some "raw") (some "weird") 12 none none none none =
      (.errorResp 400 "Unsupported compression",
       { hitWorld with log := hitWorld.log ++
          [Effect.headObj (sentinelKey (generate_cache_key (pyLower "kilauea") 12 24)),
           Effect.getObj (profilesKey (generate_cache_key (pyLower "kilauea") 12 24)),
           Effect.getObj (metadataKey (generate_cache_key (pyLower "kilauea") 12 24))] })) ∧
    (stream_zarr hitWorld "kilauea" 24 (some "sideways") (some "weird") 12
        none none none none =
      (.errorResp 400 "Unsupported storage",
       { hitWorld with log := hitWorld.log ++
          [Effect.headObj (sentinelKey (generate_cache_key (pyLower "kilauea") 12 24)),
           Effect.getObj (profilesKey (generate_cache_key (pyLower "kilauea") 12 24)),
           Effect.getObj (metadataKey (generate_cache_key (pyLower "kilauea") 12 24))] })) ∧
    (∃ cl body ab, (stream_zarr hitWorld "kilauea" 24 (some "zarr") (some "weird") 12
        none none none none).1 = HttpResponse.streamResp cl body ab) :=
  unsupported_variant_rejected_after_populate hitWorld "kilauea" 24 "weird" "sideways" 12
    none none none none ⟨"HV", "HLPD", some "", "HHZ"⟩ (StoredObj.bytes [1, 2, 3])
    rfl hitWorld_sentinel (by decide) (by decide) (by decide) (by decide)
    (by decide) (by decide)

end VolcanoAudio
